import Mathlib

/-!
Verification of the natural-language-to-SQL pipeline of this repository
(`sql_validator.py`, `sql_template.py`, `llm_integration.py`).

The Python code is shallowly embedded: strings are Lean `String`s
(operated on through their `List Char` data), dictionaries are association
lists, and the few regular expressions the code uses are modelled by
dedicated scanner functions that implement exactly the semantics of the
concrete pattern in question (documented at each definition).

Modelling conventions, used throughout:
* `str.upper()` / `str.lower()` are modelled by `Char.toUpper` /
  `Char.toLower` (an ASCII model; all inputs the code manipulates are
  ASCII SQL text plus Chinese ideographs, which both Python and this model
  leave unchanged).
* `str.strip()` strips the ASCII whitespace characters
  space/tab/newline/CR/VT/FF, like Python does on such text.
* Python `set()` iteration order is implementation defined; it is
  modelled as first-occurrence order (`dedupFirst`).  No theorem below
  depends on the chosen order.
* The Ollama HTTP call is an external effect; it is modelled by a
  `GenResult` oracle argument describing the outcome of the call, and
  `LLMAnalyst.call_ollama` maps that outcome to the string the Python
  method returns (its retry loop returns the same value for a fixed
  outcome, so retries collapse).
-/

/-- The opening brace character, written numerically so that raw braces
never appear in the file. -/
def braceL : Char := Char.ofNat 123

/-- The closing brace character. -/
def braceR : Char := Char.ofNat 125

/-- The backtick character. -/
def btick : Char := Char.ofNat 96

/-- The single-quote character. -/
def squote : Char := Char.ofNat 39

/-- Python `str.strip()` whitespace (ASCII part). -/
def isPySpace (c : Char) : Bool :=
  c = ' ' || c = '\t' || c = '\n' || c = '\r' || c = Char.ofNat 11 || c = Char.ofNat 12

/-- Python `\w` word characters.  ASCII alphanumerics and underscore;
non-ASCII characters (here: Chinese ideographs) are word characters for
Python's unicode `\w`, and the only non-ASCII characters appearing in the
strings this program builds are ideographs, so they are all treated as
word characters. -/
def isPyWord (c : Char) : Bool :=
  c.isAlphanum || c = '_' || c.toNat ≥ 128

/-- ASCII decimal digit (Python `\d` on the text in play). -/
def isPyDigit (c : Char) : Bool := c.isDigit

def pyUpper (l : List Char) : List Char := l.map Char.toUpper

def pyLower (l : List Char) : List Char := l.map Char.toLower

/-- Python `str.strip()`. -/
def pyStrip (l : List Char) : List Char :=
  ((l.dropWhile isPySpace).reverse.dropWhile isPySpace).reverse

/-- Case-insensitive equality of characters, under the ASCII model. -/
def chEqCI (a b : Char) : Bool := a.toLower = b.toLower

/-- `isPrefixAt pat l` : does `pat` occur as a prefix of `l`? (exact). -/
def listIsPrefix : List Char → List Char → Bool
  | [], _ => true
  | _ :: _, [] => false
  | a :: as, b :: bs => a = b && listIsPrefix as bs

/-- Case-insensitive prefix test. -/
def listIsPrefixCI : List Char → List Char → Bool
  | [], _ => true
  | _ :: _, [] => false
  | a :: as, b :: bs => chEqCI a b && listIsPrefixCI as bs

/-- Python `needle in hay` substring test. -/
def isSubstr (needle : List Char) : List Char → Bool
  | [] => listIsPrefix needle []
  | c :: rest => listIsPrefix needle (c :: rest) || isSubstr needle rest

/-- Case-insensitive substring search (used for `re.search` with
`re.IGNORECASE` on literal patterns). -/
def isSubstrCI (needle : List Char) : List Char → Bool
  | [] => listIsPrefixCI needle []
  | c :: rest => listIsPrefixCI needle (c :: rest) || isSubstrCI needle rest

/-- First-occurrence deduplication: the model of Python `list(set(xs))`. -/
def dedupFirstAux (seen : List String) : List String → List String
  | [] => []
  | x :: xs =>
    if seen.contains x then dedupFirstAux seen xs
    else x :: dedupFirstAux (x :: seen) xs

/-- First-occurrence deduplication: the model of Python `list(set(xs))`
(set iteration order is implementation defined; no theorem in this file
depends on the order chosen here). -/
def dedupFirst (l : List String) : List String := dedupFirstAux [] l

/-- String-level wrappers. -/
def strUpper (s : String) : String := ⟨pyUpper s.data⟩

def strStrip (s : String) : String := ⟨pyStrip s.data⟩

def strContains (hay needle : String) : Bool := isSubstr needle.data hay.data

lemma listIsPrefixCI_length {p l : List Char} (h : listIsPrefixCI p l = true) :
    p.length ≤ l.length := by
  induction p generalizing l with
  | nil => exact Nat.zero_le _
  | cons a as ih =>
    cases l with
    | nil => simp [listIsPrefixCI] at h
    | cons b bs =>
      simp only [listIsPrefixCI, Bool.and_eq_true] at h
      simpa using Nat.succ_le_succ (ih h.2)

lemma length_takeWhileLe (p : Char → Bool) (l : List Char) :
    (l.takeWhile p).length ≤ l.length :=
  (List.takeWhile_prefix p).sublist.length_le

/-! ### Regex scanner models

Each of the following functions models one concrete regular expression
used by the source, with the exact Python `re` semantics of that pattern
(leftmost match, greedy/lazy quantifiers as the pattern writes them,
`IGNORECASE`/`DOTALL` as the call site passes them). -/

/-- Model of `re.search(r'FROM\s+([^,(]+)', sql, re.IGNORECASE)`: the
capture group of the leftmost match, or `none`.  At a candidate `FROM`
the whitespace run must be non-empty and at least one non-`,(` character
must follow, otherwise the scan continues. -/
def fromCapture : List Char → Option (List Char)
  | [] => none
  | c :: rest =>
    if listIsPrefixCI "FROM".data (c :: rest) then
      let after := (c :: rest).drop 4
      let ws := after.takeWhile isPySpace
      let cap := (after.drop ws.length).takeWhile (fun ch => ch ≠ ',' && ch ≠ '(')
      if ws ≠ [] && cap ≠ [] then some cap
      else fromCapture rest
    else fromCapture rest

/-- Model of
`re.findall(r'(?:JOIN|LEFT JOIN|INNER JOIN|RIGHT JOIN)\s+([^,\s]+)', sql, re.IGNORECASE)`.
Every alternative ends in `JOIN`, and the capture starts after the
whitespace following it, so the matches' captures are exactly those of
scanning for `JOIN` itself. -/
def joinCapturesF (fuel : Nat) : List Char → List String :=
  match fuel with
  | 0 => fun _ => []
  | fuel + 1 => fun l =>
    match l with
    | [] => []
    | c :: rest =>
      if listIsPrefixCI "JOIN".data (c :: rest) then
        let after := (c :: rest).drop 4
        let ws := after.takeWhile isPySpace
        let cap := (after.drop ws.length).takeWhile (fun ch => ch ≠ ',' && !isPySpace ch)
        if ws ≠ [] && cap ≠ [] then
          (⟨cap⟩ : String) :: joinCapturesF fuel ((after.drop ws.length).drop cap.length)
        else joinCapturesF fuel rest
      else joinCapturesF fuel rest

def joinCaptures (l : List Char) : List String := joinCapturesF l.length l

/-- Model of `re.split(r'\s+(?:AS\s+)?\b[a-zA-Z_]\w*\b', s)[0]`: the
prefix of `s` before the leftmost match.  A match starts at a whitespace
character whose following whitespace run is followed by an ASCII letter
or underscore (the optional case-sensitive `AS` arm also begins with a
letter, so it does not change where a match can start). -/
def splitHeadToken : List Char → List Char
  | [] => []
  | c :: rest =>
    if isPySpace c &&
       (match (c :: rest).dropWhile isPySpace with
        | c2 :: _ => c2.isAlpha || c2 = '_'
        | [] => false)
    then []
    else c :: splitHeadToken rest

/-- Shared post-processing of a `FROM`/`JOIN` capture:
`.strip()`, then `split[0]`, then `.strip()`, then `.replace('`','')`. -/
def captureToTableName (cap : List Char) : String :=
  ⟨(pyStrip (splitHeadToken (pyStrip cap))).filter (· ≠ btick)⟩

namespace SQLValidator

/-- `SQLValidator.extract_tables_from_sql` (sql_validator.py:44-66). -/
def extract_tables_from_sql (sql : String) : List String :=
  let fromTables : List String :=
    match fromCapture sql.data with
    | some cap => if captureToTableName cap ≠ "" then [captureToTableName cap] else []
    | none => []
  let joinTables : List String :=
    (joinCaptures sql.data).foldr (fun m acc =>
      if captureToTableName m.data ≠ "" then captureToTableName m.data :: acc else acc) []
  dedupFirst (fromTables ++ joinTables)

end SQLValidator

/-- Model of `re.sub(r"'(.*?)'", "'STRING'", s)` (and the same with a
double quote): a quoted span with no newline inside is replaced by
`'STRING'`; an opening quote with no closing quote on the same line is
left alone. -/
def replaceQuotedGo (q : Char) : Option (List Char) → List Char → List Char
  | none, [] => []
  | some buf, [] => q :: buf.reverse
  | none, c :: rest =>
    if c = q then replaceQuotedGo q (some []) rest
    else c :: replaceQuotedGo q none rest
  | some buf, c :: rest =>
    if c = q then (squote :: "STRING".data ++ [squote]) ++ replaceQuotedGo q none rest
    else if c = '\n' then q :: buf.reverse ++ '\n' :: replaceQuotedGo q none rest
    else replaceQuotedGo q (some (c :: buf)) rest

def replaceQuoted (q : Char) (l : List Char) : List Char := replaceQuotedGo q none l

/-- Model of `re.findall(r'`([^`]+)`', s)`: the non-empty backtick-quoted
spans, scanned left to right. -/
def backtickFindsGo : Option (List Char) → List Char → List String
  | _, [] => []
  | none, c :: rest =>
    if c = btick then backtickFindsGo (some []) rest
    else backtickFindsGo none rest
  | some buf, c :: rest =>
    if c = btick then
      if buf ≠ [] then (⟨buf.reverse⟩ : String) :: backtickFindsGo none rest
      else backtickFindsGo (some []) rest
    else backtickFindsGo (some (c :: buf)) rest

def backtickFinds (l : List Char) : List String := backtickFindsGo none l

/-- Condition for the lazy group of `SELECT\s+(.*?)\s+FROM` to stop at
this position: a whitespace character whose whitespace run is followed
by `FROM` (case-insensitively).  `\s+` is greedy but `FROM` begins with
a non-space character, so the `FROM` must sit at the end of the run. -/
def wsThenFrom (l : List Char) : Bool :=
  match l with
  | c :: _ => isPySpace c && listIsPrefixCI "FROM".data (l.dropWhile isPySpace)
  | [] => false

/-- The lazy clause body: the prefix of `l` up to the first position
satisfying `wsThenFrom`, if any. -/
def findClauseEnd : List Char → Option (List Char)
  | [] => none
  | c :: rest =>
    if wsThenFrom (c :: rest) then some []
    else match findClauseEnd rest with
      | some g => some (c :: g)
      | none => none

/-- Model of
`re.search(r'SELECT\s+(.*?)\s+FROM', s, re.IGNORECASE | re.DOTALL)`:
the capture of the leftmost match.  After `SELECT` the greedy `\s+`
takes the whole whitespace run; the lazy group then ends at the first
`wsThenFrom` position.  If there is none but `FROM` directly follows a
run of length at least two, the engine backtracks `\s+` by one and the
group is empty.  Otherwise the scan moves to the next `SELECT`. -/
def selectClauseGroup : List Char → Option (List Char)
  | [] => none
  | c :: rest =>
    if listIsPrefixCI "SELECT".data (c :: rest) then
      let after := (c :: rest).drop 6
      let w := after.takeWhile isPySpace
      if w ≠ [] then
        let body := after.drop w.length
        match findClauseEnd body with
        | some g => some g
        | none =>
          if w.length ≥ 2 && listIsPrefixCI "FROM".data body then some []
          else selectClauseGroup rest
      else selectClauseGroup rest
    else selectClauseGroup rest

/-- Model of `re.sub(r'\w+\([^)]*\)', '', s)`: a maximal word run
directly followed by a parenthesised span (with a closing parenthesis)
is deleted. -/
def removeFuncCallsF (fuel : Nat) : List Char → List Char :=
  match fuel with
  | 0 => fun l => l
  | fuel + 1 => fun l =>
    match l with
    | [] => []
    | c :: rest =>
      if isPyWord c then
        let run := c :: rest.takeWhile isPyWord
        let after := rest.drop (rest.takeWhile isPyWord).length
        match after with
        | '(' :: r2 =>
          let inner := r2.takeWhile (· ≠ ')')
          match r2.drop inner.length with
          | _ :: r4 => removeFuncCallsF fuel r4
          | [] => run ++ '(' :: removeFuncCallsF fuel r2
        | other => run ++ removeFuncCallsF fuel other
      else c :: removeFuncCallsF fuel rest

def removeFuncCalls (l : List Char) : List Char := removeFuncCallsF l.length l

/-- Model of `re.findall(r'\b([a-zA-Z_][a-zA-Z0-9_]*)\b', s)`.  The
boolean argument records whether the previous character was a word
character (no match can start there).  The class `[a-zA-Z0-9_]` is
ASCII, but the trailing `\b` is checked against Python's unicode `\w`,
so a run glued to an ideograph yields no match. -/
def wordFindsF (fuel : Nat) : Bool → List Char → List String :=
  match fuel with
  | 0 => fun _ _ => []
  | fuel + 1 => fun atB l =>
    match l with
    | [] => []
    | c :: rest =>
      if atB && (c.isAlpha || c = '_') then
        let run := c :: rest.takeWhile (fun ch => ch.isAlphanum || ch = '_')
        let after := rest.drop (rest.takeWhile (fun ch => ch.isAlphanum || ch = '_')).length
        let ok := match after with | [] => true | c2 :: _ => !isPyWord c2
        if ok then (⟨run⟩ : String) :: wordFindsF fuel false after
        else wordFindsF fuel false rest
      else wordFindsF fuel (!isPyWord c) rest

def wordFinds (l : List Char) : List String := wordFindsF l.length true l

/-- The aggregation keyword list of `SQLValidator.__init__`
(`keyword_patterns['aggregation']`). -/
def aggregationKeywords : List String :=
  ["COUNT", "SUM", "AVG", "MAX", "MIN", "GROUP_CONCAT"]

namespace SQLValidator

/-- `SQLValidator.extract_columns_from_sql` (sql_validator.py:20-42). -/
def extract_columns_from_sql (sql : String) : List String :=
  let noStrings := replaceQuoted '"' (replaceQuoted squote sql.data)
  let backtickCols := backtickFinds noStrings
  let selectCols : List String :=
    match selectClauseGroup noStrings with
    | some clause =>
      (wordFinds (removeFuncCalls clause)).filter (fun w =>
        ¬ aggregationKeywords.contains (strUpper w) ∧
        ¬ (w.data ≠ [] ∧ w.data.all isPyDigit))
    | none => []
  dedupFirst (backtickCols ++ selectCols)

end SQLValidator

/-! ### difflib model (`difflib.get_close_matches`, cutoff 0.6, n=1)

`SequenceMatcher` with no junk (the strings in play are far below the
autojunk threshold of 200): `ratio = 2*M/T` where `M` is the total size
of the matching blocks and `T` the sum of the lengths.  The float
comparison `ratio >= 0.6` is modelled exactly over the rationals: for
the short identifiers involved the two sides can only differ by far
more than one ulp unless they are equal, and at exact equality both
sides round identically, so the rational model agrees with the float
computation. -/

def commonPrefixLen : List Char → List Char → Nat
  | a :: as, b :: bs => if a = b then commonPrefixLen as bs + 1 else 0
  | _, _ => 0

lemma commonPrefixLen_le_left (a b : List Char) :
    commonPrefixLen a b ≤ a.length := by
  induction a generalizing b with
  | nil => simp [commonPrefixLen]
  | cons x xs ih =>
    cases b with
    | nil => simp [commonPrefixLen]
    | cons y ys =>
      simp only [commonPrefixLen, List.length_cons]
      split
      · exact Nat.succ_le_succ (ih ys)
      · exact Nat.zero_le _

lemma commonPrefixLen_le_right (a b : List Char) :
    commonPrefixLen a b ≤ b.length := by
  induction a generalizing b with
  | nil => simp [commonPrefixLen]
  | cons x xs ih =>
    cases b with
    | nil => simp [commonPrefixLen]
    | cons y ys =>
      simp only [commonPrefixLen, List.length_cons]
      split
      · exact Nat.succ_le_succ (ih ys)
      · exact Nat.zero_le _

/-- `SequenceMatcher.find_longest_match` over the whole ranges: the
longest matching block, preferring the smallest start in `a`, then the
smallest start in `b` (difflib's documented tie-break). -/
def findLongestMatch (a b : List Char) : Nat × Nat × Nat :=
  (List.range (a.length + 1)).foldl (fun best i =>
    (List.range (b.length + 1)).foldl (fun best j =>
      let k := commonPrefixLen (a.drop i) (b.drop j)
      if k > best.2.2 then (i, j, k) else best) best) (0, 0, 0)

/-- Total size of the matching blocks (`get_matching_blocks` recursion):
recursively split around the longest match.  Each recursive call is on a
strictly shorter pair (the block has positive size), so a step count of
`|a| + |b| + 1` always suffices; the fuel-0 case is unreachable. -/
def matchingTotalF (fuel : Nat) (a b : List Char) : Nat :=
  match fuel with
  | 0 => 0
  | fuel + 1 =>
    let t := findLongestMatch a b
    if t.2.2 = 0 then 0
    else
      matchingTotalF fuel (a.take t.1) (b.take t.2.1) + t.2.2 +
        matchingTotalF fuel (a.drop (t.1 + t.2.2)) (b.drop (t.2.1 + t.2.2))

def matchingTotal (a b : List Char) : Nat :=
  matchingTotalF (a.length + b.length + 1) a b

/-- `difflib.get_close_matches(word, possibilities, n=1, cutoff=0.6)`.
`seq1` is the possibility and `seq2` the word, as in difflib.  The
`heapq.nlargest` step compares `(ratio, string)` pairs, so ratio ties
are broken towards the code-point-larger string. -/
def get_close_matches1 (word : String) (poss : List String) : Option String :=
  let scored : List (String × Nat) := poss.filterMap (fun x =>
    let m := matchingTotal x.data word.data
    if 5 * (2 * m) ≥ 3 * (x.data.length + word.data.length) then some (x, m) else none)
  match scored with
  | [] => none
  | x :: xs =>
    some ((xs.foldl (fun best cand =>
      let t1 := cand.1.data.length + word.data.length
      let t2 := best.1.data.length + word.data.length
      if cand.2 * t2 > best.2 * t1 ∨ (cand.2 * t2 = best.2 * t1 ∧ best.1 < cand.1)
      then cand else best) x).1)

/-- The fixed domain-synonym dictionary of
`SQLValidator.find_similar_column` (sql_validator.py:89-102). -/
def column_mappings : List (String × List String) :=
  [("订购数量", ["数量", "quantity", "qty", "order_quantity", "total_quantity"]),
   ("购买数量", ["数量", "quantity", "qty", "purchase_quantity"]),
   ("销售数量", ["数量", "quantity", "qty", "sales_quantity"]),
   ("订购金额", ["金额", "amount", "total_amount", "order_amount", "price"]),
   ("销售金额", ["金额", "amount", "sales_amount", "revenue"]),
   ("购买金额", ["金额", "amount", "purchase_amount"]),
   ("订购时间", ["时间", "date", "datetime", "order_date", "created_at"]),
   ("购买时间", ["时间", "date", "datetime", "purchase_date", "buy_date"]),
   ("销售时间", ["时间", "date", "datetime", "sales_date", "sale_date"]),
   ("订单状态", ["状态", "status", "order_status"]),
   ("支付状态", ["状态", "status", "payment_status"]),
   ("发货状态", ["状态", "status", "delivery_status"])]

namespace SQLValidator

/-- `SQLValidator.find_similar_column` (sql_validator.py:68-109).
Source order: exact case-insensitive match, then substring containment
in either direction, then `difflib.get_close_matches`, then the
domain-synonym dictionary. -/
def find_similar_column (invalid : String) (avail : List String) : Option String :=
  if avail = [] then none
  else
    match avail.find? (fun col => pyLower col.data = pyLower invalid.data) with
    | some c => some c
    | none =>
      match avail.find? (fun col =>
        isSubstr (pyLower invalid.data) (pyLower col.data) ||
        isSubstr (pyLower col.data) (pyLower invalid.data)) with
      | some c => some c
      | none =>
        match get_close_matches1 invalid avail with
        | some c => some c
        | none =>
          match column_mappings.find? (fun p => p.1 = invalid) with
          | some p => p.2.find? (fun cand => avail.contains cand)
          | none => none

end SQLValidator

/-- Case-insensitive literal search-and-replace, the model of
`re.sub(pattern, repl, s, flags=re.IGNORECASE)` for the literal pattern
`` `column` `` of `fix_column_names`.  (The identifiers this is applied
to consist of word characters, for which the literal reading of the
interpolated pattern is exact.)  An empty pattern is never produced by
the extraction step; it is mapped to the identity. -/
def replaceAllCIF (pat repl : List Char) (fuel : Nat) : List Char → List Char :=
  match fuel with
  | 0 => fun l => l
  | fuel + 1 => fun l =>
    match l with
    | [] => []
    | c :: rest =>
      if pat ≠ [] ∧ listIsPrefixCI pat (c :: rest) then
        repl ++ replaceAllCIF pat repl fuel ((c :: rest).drop pat.length)
      else c :: replaceAllCIF pat repl fuel rest

def replaceAllCI (pat repl : List Char) (l : List Char) : List Char :=
  replaceAllCIF pat repl l.length l

/-- Case-insensitive `\b pat \b` search-and-replace (model of the second
`re.sub` of `fix_column_names`).  The boolean argument records whether
the previous character is a word character; a match needs a boundary on
both sides (`\b` = word-ness changes), checked against the characters of
the subject string. -/
def replaceWordCIF (pat repl : List Char) (fuel : Nat) : Bool → List Char → List Char :=
  match fuel with
  | 0 => fun _ l => l
  | fuel + 1 => fun prevW l =>
    match l with
    | [] => []
    | c :: rest =>
      if pat ≠ [] ∧ listIsPrefixCI pat (c :: rest) then
        let seg := (c :: rest).take pat.length
        let after := (c :: rest).drop pat.length
        let lastW := isPyWord (seg.getLastD ' ')
        let afterW := match after with | [] => false | c2 :: _ => isPyWord c2
        if (prevW ≠ isPyWord c) ∧ (lastW ≠ afterW) then
          repl ++ replaceWordCIF pat repl fuel lastW after
        else c :: replaceWordCIF pat repl fuel (isPyWord c) rest
      else c :: replaceWordCIF pat repl fuel (isPyWord c) rest

def replaceWordCI (pat repl : List Char) (prevW : Bool) (l : List Char) : List Char :=
  replaceWordCIF pat repl l.length prevW l

namespace SQLValidator

/-- `SQLValidator.fix_column_names` (sql_validator.py:141-170).
Corrections are recorded in encounter order (the model of the insertion
order of the Python dict). -/
def fix_column_names (sql : String) (avail : List String) :
    String × List (String × String) :=
  (extract_columns_from_sql sql).foldl (fun acc column =>
    if avail.contains column then acc
    else
      match find_similar_column column avail with
      | some similar =>
        let s1 := replaceAllCI (btick :: column.data ++ [btick])
          (btick :: similar.data ++ [btick]) acc.1.data
        let s2 := replaceWordCI column.data (btick :: similar.data ++ [btick]) false s1
        ((⟨s2⟩ : String), acc.2 ++ [(column, similar)])
      | none => acc) (sql, [])

/-- Column metadata as the Schema Provider hands it to the pipeline
(the dict entries consumed via `col['name']`, `col.get('type')`,
`col.get('nullable')`, `col.get('primary_key')`, `col.get('category')`). -/
structure ColumnDescriptor where
  name : String
  type : String := ""
  nullable : Bool := true
  primary_key : Bool := false
  category : String := ""
deriving Repr, DecidableEq

/-- `SQLValidator.generate_safe_sql` (sql_validator.py:172-204).  The
Python stable `sort(key=priority, reverse=True)` over the five possible
priorities is realised as bucket concatenation, which is exactly stable
descending order. -/
def generate_safe_sql (table_name : String) (table_schema : List ColumnDescriptor)
    (limit : Nat := 50) : String :=
  let columns := table_schema.map (·.name)
  let priority : ColumnDescriptor → Nat := fun col =>
    if col.primary_key then 100
    else if ["name", "title", "desc"].any (fun kw => isSubstr kw.data (pyLower col.name.data)) then 90
    else if ["date", "time", "create", "update"].any
        (fun kw => isSubstr kw.data (pyLower col.name.data)) then 80
    else if ["int", "float", "decimal", "double"].any
        (fun kw => isSubstr kw.data (pyLower col.type.data)) then 70
    else 60
  let sorted := [100, 90, 80, 70, 60].flatMap (fun p =>
    table_schema.filter (fun col => priority col = p))
  let selected := (sorted.map (·.name)).take 5
  let selected := if selected = [] then (if columns.length ≥ 3 then columns.take 3 else columns)
    else selected
  let selectClause := String.intercalate ", " (selected.map (fun c => "`" ++ c ++ "`"))
  "SELECT " ++ selectClause ++ " FROM `" ++ table_name ++ "` LIMIT " ++ toString limit

end SQLValidator

-- concrete sanity checks of the scanner models
example : SQLValidator.extract_tables_from_sql "SELECT a FROM `sales`   ORDER BY 1 LIMIT 10" =
    ["sales"] := by decide
example : SQLValidator.extract_columns_from_sql "SELECT product FROM sales LIMIT 5" =
    ["product"] := by decide
example : SQLValidator.find_similar_column "金额" ["product", "amount"] = none := by decide
example : SQLValidator.find_similar_column "amount_x" ["product", "amount"] = some "amount" := by
  decide
example : SQLValidator.fix_column_names "SELECT product FROM sales LIMIT 5" ["product"] =
    ("SELECT product FROM sales LIMIT 5", []) := by decide

namespace SQLValidator

/-- `SQLValidator.validate_sql_structure` (sql_validator.py:111-139).
Returns `(len(warnings) == 0, warnings)` after checking, in order:
leading SELECT, presence of FROM, the seven dangerous keywords as
space-delimited tokens, balanced parentheses, and presence of LIMIT. -/
def validate_sql_structure (sql : String) : Bool × List String :=
  let sqlUpper := pyUpper sql.data
  let w1 : List String :=
    if ¬ (listIsPrefix "SELECT".data (pyStrip sqlUpper)) then ["SQL应以SELECT开头"] else []
  let w2 : List String :=
    if ¬ (isSubstr "FROM".data sqlUpper) then w1 ++ ["缺少FROM子句"] else w1
  let dangerous : List String := ["DROP", "DELETE", "UPDATE", "INSERT", "ALTER", "CREATE", "TRUNCATE"]
  let w3 : List String :=
    dangerous.foldl (fun acc kw =>
      if isSubstr (' ' :: kw.data ++ [' ']) (' ' :: sqlUpper ++ [' '])
      then acc ++ ["检测到危险操作: " ++ kw] else acc) w2
  let w4 : List String :=
    if sql.data.count '(' ≠ sql.data.count ')' then w3 ++ ["括号不匹配"] else w3
  let w5 : List String :=
    if ¬ (isSubstr "LIMIT".data sqlUpper) ∧ isSubstr "SELECT".data sqlUpper
    then w4 ++ ["建议添加LIMIT子句限制返回行数"] else w4
  (w5.isEmpty, w5)

end SQLValidator

namespace LLMAnalyst

/-- `LLMAnalyst._validate_sql_quality` (llm_integration.py:640-664).
The quality gate between the externally optimized candidate (`llmSql`)
and the template baseline (`templateSql`).  Note the baseline text is
never consulted: the gate inspects only the candidate. -/
def validate_sql_quality (llmSql : String) (_templateSql : String) : Bool :=
  if llmSql = "" then false
  else if (pyStrip llmSql.data).length < 10 then false
  else if ¬ (isSubstr "SELECT".data (pyUpper llmSql.data)) then false
  else if ¬ (isSubstr "FROM".data (pyUpper llmSql.data)) then false
  else if (["DROP", "DELETE", "UPDATE", "INSERT", "ALTER", "CREATE", "TRUNCATE"].any
      (fun kw => isSubstr (' ' :: kw.data ++ [' ']) (' ' :: pyUpper llmSql.data ++ [' ']))) then false
  else if pyStrip (pyUpper llmSql.data) = "SELECT 1".data then false
  else true

end LLMAnalyst

-- sanity examples (removed content checks are proved as real theorems later)
example : (SQLValidator.validate_sql_structure "SELECT a FROM t LIMIT 5").1 = true := by decide
example : (SQLValidator.validate_sql_structure "SELECT a FROM t").1 = false := by decide
example : (SQLValidator.validate_sql_structure "SELECT a FROM t WHERE x = 1 LIMIT 5").1 = true := by
  decide
example : (SQLValidator.validate_sql_structure "SELECT a FROM t LIMIT 5; DROP TABLE t").1 = false := by
  decide
example : LLMAnalyst.validate_sql_quality "SELECT a FROM t" "0123456789012345678901234567890123456789" = true := by decide

set_option maxRecDepth 40000

/-! ### SQLTemplateSystem (sql_template.py, duplicated verbatim inside
llm_integration.py lines 15-326; the two copies differ only in a
docstring, so one embedding serves both). -/

/-- A catalog: the `table_info : Dict[str, List[Dict]]` argument, in
insertion order. -/
abbrev Catalog := List (String × List SQLValidator.ColumnDescriptor)

/-- Model of Python `str.format` over a template whose only brace
occurrences are well-formed named slots (true of the six templates
below): scan for `{name}` and substitute the bound value verbatim;
an unbound name is a `KeyError`, modelled as `none`. -/
def pyFormatGo (args : List (String × String)) :
    Option (List Char) → List Char → Option (List Char)
  | none, [] => some []
  | some _, [] => none
  | none, c :: rest =>
    if c = braceL then pyFormatGo args (some []) rest
    else (pyFormatGo args none rest).map (fun r => c :: r)
  | some buf, c :: rest =>
    if c = braceR then
      match args.find? (fun p => p.1.data = buf.reverse) with
      | some p => (pyFormatGo args none rest).map (fun r => p.2.data ++ r)
      | none => none
    else pyFormatGo args (some (c :: buf)) rest

def pyFormat (tmpl : String) (args : List (String × String)) : Option (List Char) :=
  pyFormatGo args none tmpl.data

/-- Model of `re.sub(r'\n\s*\n', '\n', s)`: a newline followed by a
whitespace run containing another newline collapses to a single newline
(the greedy `\s*` makes the match end at the last newline of the run). -/
def collapseBlankF (fuel : Nat) : List Char → List Char :=
  match fuel with
  | 0 => fun l => l
  | fuel + 1 => fun l =>
    match l with
    | [] => []
    | c :: rest =>
      if c = '\n' then
        let run := rest.takeWhile isPySpace
        let trail := (run.reverse.takeWhile (· ≠ '\n')).length
        if run.contains '\n' then
          '\n' :: collapseBlankF fuel (rest.drop (run.length - trail))
        else '\n' :: collapseBlankF fuel rest
      else c :: collapseBlankF fuel rest

def collapseBlank (l : List Char) : List Char := collapseBlankF l.length l

namespace SQLTemplateSystem

/-- The `sql_template` strings of `SQLTemplateSystem.TEMPLATES`,
transcribed byte for byte (note the trailing space after `SELECT` and
the twelve spaces of trailing indentation inside the triple-quoted
strings). -/
def TEMPLATES : List (String × String) :=
  [("basic_select",
    "SELECT \x7bcolumns\x7d FROM `\x7btable\x7d` \x7bwhere\x7d \x7bgroup_by\x7d \x7border_by\x7d \x7blimit\x7d"),
   ("summary_stats",
    "\nSELECT \n    COUNT(*) as 总记录数,\n    \x7bnumeric_columns\x7d\nFROM `\x7btable\x7d`\n\x7bwhere\x7d\n            "),
   ("group_by_stats",
    "\nSELECT \n    `\x7bgroup_column\x7d` as 分组,\n    COUNT(*) as 记录数,\n    \x7bagg_columns\x7d\nFROM `\x7btable\x7d`\n\x7bwhere\x7d\nGROUP BY `\x7bgroup_column\x7d`\nORDER BY 记录数 DESC\n\x7blimit\x7d\n            "),
   ("time_series",
    "\nSELECT \n    DATE(`\x7bdate_column\x7d`) as 日期,\n    COUNT(*) as 记录数,\n    \x7bagg_columns\x7d\nFROM `\x7btable\x7d`\nWHERE `\x7bdate_column\x7d` IS NOT NULL\nGROUP BY DATE(`\x7bdate_column\x7d`)\nORDER BY 日期\n\x7blimit\x7d\n            "),
   ("ranking",
    "\nSELECT \n    `\x7branking_column\x7d` as 名称,\n    `\x7bvalue_column\x7d` as 数值\nFROM `\x7btable\x7d`\nWHERE `\x7bvalue_column\x7d` IS NOT NULL\nORDER BY `\x7bvalue_column\x7d` DESC\n\x7blimit\x7d\n            "),
   ("related_query",
    "\nSELECT \n    t1.`\x7bt1_column\x7d` as 表1字段,\n    t2.`\x7bt2_column\x7d` as 表2字段,\n    COUNT(*) as 关联数\nFROM `\x7btable1\x7d` t1\nJOIN `\x7btable2\x7d` t2 ON t1.`\x7bjoin_key1\x7d` = t2.`\x7bjoin_key2\x7d`\n\x7bwhere\x7d\nGROUP BY t1.`\x7bt1_column\x7d`, t2.`\x7bt2_column\x7d`\nORDER BY 关联数 DESC\n\x7blimit\x7d\n            ")]

/-- The `description` fields of `TEMPLATES`. -/
def template_descriptions : List (String × String) :=
  [("basic_select", "基础查询"), ("summary_stats", "统计汇总"),
   ("group_by_stats", "分组统计"), ("time_series", "时间序列分析"),
   ("ranking", "排名查询"), ("related_query", "关联查询")]

/-- `TEMPLATES['summary_stats']['numeric_columns_template']`. -/
def numeric_columns_template : String :=
  "AVG(`\x7bcolumn\x7d`) as `\x7bcolumn\x7d_平均值`, MAX(`\x7bcolumn\x7d`) as `\x7bcolumn\x7d_最大值`, MIN(`\x7bcolumn\x7d`) as `\x7bcolumn\x7d_最小值`"

/-- One trigger pattern of the classifier: either a literal substring or
a two-part pattern `a.*b` (`.` does not match a newline). -/
inductive TriggerPattern where
  | lit (s : String)
  | twoPart (a b : String)
deriving Repr, DecidableEq

/-- Model of `re.search(a + '.*' + b, q)`: some occurrence of `a`
followed, with no newline in between, by an occurrence of `b`. -/
def searchTwoPart (a b q : List Char) : Bool :=
  (List.range (q.length + 1)).any fun i =>
    listIsPrefix a (q.drop i) &&
    (let mid := q.drop (i + a.length)
     (List.range (mid.length + 1)).any fun d =>
       listIsPrefix b (mid.drop d) && (mid.take d).all (· ≠ '\n'))

def matchesPattern (q : List Char) : TriggerPattern → Bool
  | .lit s => isSubstr s.data q
  | .twoPart a b => searchTwoPart a.data b.data q

/-- `keyword_patterns` of `classify_query_intent`, in source order. -/
def keyword_patterns : List (String × List TriggerPattern) :=
  [("summary_stats",
    [.lit "总计", .lit "合计", .lit "汇总", .lit "总和", .lit "平均", .lit "最大值",
     .lit "最小值", .lit "统计", .lit "数量"]),
   ("group_by_stats",
    [.lit "分组", .lit "分类", .twoPart "按" "统计", .twoPart "各个" "的", .lit "每种",
     .lit "每类", .lit "各地区"]),
   ("time_series",
    [.lit "时间", .lit "日期", .lit "月份", .lit "季度", .lit "年份", .lit "趋势",
     .lit "每天", .lit "每月", .lit "逐年"]),
   ("ranking",
    [.lit "排名", .twoPart "前" "名", .lit "最高", .lit "最低", .lit "最多", .lit "最少",
     .lit "最好", .lit "最差", .lit "top"]),
   ("related_query",
    [.lit "关联", .lit "关系", .lit "连接", .lit "涉及", .twoPart "和" "一起", .lit "同时"]),
   ("basic_select",
    [.lit "查询", .lit "查看", .lit "显示", .lit "列出", .lit "找", .lit "搜索"])]

/-- The `params` dict built by `_extract_query_params`.  `limit_value`
is optional because downstream code reads it with
`.get('limit_value', 100)`; the extractor always sets it. -/
structure ExtractedParams where
  table_names : List String := []
  column_names : List String := []
  numeric_columns : List String := []
  date_columns : List String := []
  text_columns : List String := []
  filters : List String := []
  sort_order : String := "DESC"
  limit_value : Option Nat := none
deriving Repr, DecidableEq

/-- Characters excluded from the hint captures:
`[^"\'，,。\.\s]` of the `表/字段/列` patterns. -/
def hintExcluded (c : Char) : Bool :=
  c = '"' || c = squote || c = '，' || c = ',' || c = '。' || c = '.' || isPySpace c

/-- Model of `re.findall(marker + '\s*[："\']?([^"\'，,。\.\s]+)', q)`:
after the marker and optional whitespace, an optional single
`：`/`"`/`'` is consumed greedily (backtracking to zero if the capture
would otherwise be empty), then the longest run of allowed characters is
captured. -/
def hintFindAllF (marker : List Char) (fuel : Nat) : List Char → List String :=
  match fuel with
  | 0 => fun _ => []
  | fuel + 1 => fun l =>
    match l with
    | [] => []
    | c :: rest =>
      if listIsPrefixCI marker (c :: rest) then
        let afterM := (c :: rest).drop marker.length
        let afterWs := afterM.drop (afterM.takeWhile isPySpace).length
        let tryQuote : Option (List Char) :=
          match afterWs with
          | q :: restQ =>
            if q = '：' || q = '"' || q = squote then
              let cap := restQ.takeWhile (fun ch => !hintExcluded ch)
              if cap ≠ [] then some cap else none
            else none
          | [] => none
        match tryQuote with
        | some cap =>
          (⟨cap⟩ : String) ::
            hintFindAllF marker fuel ((afterWs.drop 1).drop cap.length)
        | none =>
          let cap := afterWs.takeWhile (fun ch => !hintExcluded ch)
          if cap ≠ [] then
            (⟨cap⟩ : String) :: hintFindAllF marker fuel (afterWs.drop cap.length)
          else hintFindAllF marker fuel rest
      else hintFindAllF marker fuel rest

def hintFindAll (marker : String) (q : List Char) : List String :=
  hintFindAllF marker.data q.length q

/-- Value of a run of decimal digits (Python `int`). -/
def digitsToNat (l : List Char) : Nat :=
  l.foldl (fun acc c => acc * 10 + (c.toNat - '0'.toNat)) 0

/-- Model of `re.findall(r'前\s*(\d+)\s*名', q)[0]`: the digits of the
leftmost occurrence of `前`, optional whitespace, digits, optional
whitespace, `名`. -/
def limitFindF (fuel : Nat) : List Char → Option Nat :=
  match fuel with
  | 0 => fun _ => none
  | fuel + 1 => fun l =>
    match l with
    | [] => none
    | c :: rest =>
      if c = '前' then
        let afterWs := rest.drop (rest.takeWhile isPySpace).length
        let digits := afterWs.takeWhile isPyDigit
        let afterD := afterWs.drop digits.length
        let afterWs2 := afterD.drop (afterD.takeWhile isPySpace).length
        if digits ≠ [] ∧ afterWs2.headD ' ' = '名' then
          some (digitsToNat digits)
        else limitFindF fuel rest
      else limitFindF fuel rest

/-- Model of `re.search(r'前(\d+)', q)`: digits directly after the first
`前` that is followed by at least one digit. -/
def limitAfterQianF (fuel : Nat) : List Char → Option Nat :=
  match fuel with
  | 0 => fun _ => none
  | fuel + 1 => fun l =>
    match l with
    | [] => none
    | c :: rest =>
      if c = '前' then
        let digits := rest.takeWhile isPyDigit
        if digits ≠ [] then some (digitsToNat digits)
        else limitAfterQianF fuel rest
      else limitAfterQianF fuel rest

/-- `SQLTemplateSystem._extract_query_params` (sql_template.py:115-152). -/
def extract_query_params (query : String) : ExtractedParams :=
  let q := query.data
  let tableNames := hintFindAll "表" q
  let columnNames := hintFindAll "字段" q ++ hintFindAll "列" q
  let limitV : Nat :=
    match limitFindF q.length q with
    | some n => n
    | none =>
      if ["前十", "前20", "前50"].any (fun p => isSubstr p.data q) then
        match limitAfterQianF q.length q with
        | some n => n
        | none => 10
      else 10
  let sortOrder :=
    if ["最低", "最少", "最小", "降序", "倒序"].any (fun p => isSubstr p.data q)
    then "ASC" else "DESC"
  { table_names := tableNames
    column_names := columnNames
    sort_order := sortOrder
    limit_value := some limitV }

/-- The `intent_info` dict returned by `classify_query_intent`. -/
structure IntentInfo where
  intent : String
  confidence : ℚ
  extracted_params : ExtractedParams
deriving Repr, DecidableEq

/-- `SQLTemplateSystem.classify_query_intent` (sql_template.py:82-113).
The loop over `keyword_patterns` keeps scanning after a hit (there is no
outer `break`), overwriting `matched_intent` whenever a later intent has
a matching pattern and differs from the current value. -/
def classify_query_intent (query : String) : String × IntentInfo :=
  let ql := pyLower query.data
  let st : String × ℚ := keyword_patterns.foldl (fun acc p =>
    if p.2.any (matchesPattern ql) ∧ p.1 ≠ acc.1 then (p.1, (4 : ℚ)/5) else acc)
    ("basic_select", 0)
  (st.1, { intent := st.1, confidence := st.2,
           extracted_params := extract_query_params query })

/-- `SQLTemplateSystem._get_column_alias` english mappings, in source
(insertion) order. -/
def english_mappings : List (String × String) :=
  [("id", "ID"), ("name", "名称"), ("title", "标题"), ("desc", "描述"),
   ("description", "描述"), ("date", "日期"), ("time", "时间"),
   ("datetime", "日期时间"), ("create_time", "创建时间"), ("update_time", "更新时间"),
   ("amount", "金额"), ("price", "价格"), ("cost", "成本"), ("fee", "费用"),
   ("money", "金额"), ("total", "总计"), ("sum", "合计"), ("count", "数量"),
   ("quantity", "数量"), ("qty", "数量"), ("number", "编号"), ("num", "编号"),
   ("status", "状态"), ("state", "状态"), ("type", "类型"), ("category", "分类"),
   ("class", "类别"), ("group", "分组"), ("user", "用户"), ("username", "用户名"),
   ("password", "密码"), ("email", "邮箱"), ("phone", "电话"), ("mobile", "手机"),
   ("address", "地址"), ("city", "城市"), ("province", "省份"), ("country", "国家"),
   ("region", "区域"), ("area", "地区"), ("score", "分数"), ("grade", "等级"),
   ("level", "级别"), ("rate", "比率"), ("ratio", "比例"), ("percent", "百分比"),
   ("percentage", "百分比"), ("age", "年龄"), ("gender", "性别"), ("sex", "性别"),
   ("birth", "生日"), ("birthday", "生日")]

def alias_suffixes : List (String × String) :=
  [("_id", "ID"), ("_name", "名称"), ("_time", "时间"), ("_date", "日期"),
   ("_amount", "金额"), ("_price", "价格"), ("_count", "数量"), ("_total", "总计"),
   ("_status", "状态"), ("_type", "类型")]

def listEndsWith (suffix l : List Char) : Bool :=
  listIsPrefix suffix.reverse l.reverse

/-- `SQLTemplateSystem._get_column_alias` (sql_template.py:275-316). -/
def get_column_alias (column_name : String) : String :=
  let colLower := pyLower column_name.data
  if column_name.data.any (fun c => 0x4e00 ≤ c.toNat ∧ c.toNat ≤ 0x9fff) then column_name
  else
    match english_mappings.find? (fun p =>
      p.1.data = colLower ∨ isSubstr ('_' :: p.1.data) colLower ∨
      isSubstr (p.1.data ++ ['_']) colLower) with
    | some p => p.2
    | none =>
      match alias_suffixes.find? (fun p => listEndsWith p.1.data colLower) with
      | some p =>
        let pre := colLower.take (colLower.length - p.1.data.length)
        match english_mappings.find? (fun q => q.1.data = pre) with
        | some q => q.2 ++ p.2
        | none => (⟨pre⟩ : String) ++ p.2
      | none => column_name

end SQLTemplateSystem

-- classifier sanity checks
example : (SQLTemplateSystem.classify_query_intent "top 5 products by sales amount").1 =
    "ranking" := by decide
example : (SQLTemplateSystem.classify_query_intent "hello").1 = "basic_select" := by decide
example : (SQLTemplateSystem.extract_query_params "top 5 products by sales amount").limit_value =
    some 10 := by decide
example : (SQLTemplateSystem.extract_query_params "前 7 名").limit_value = some 7 := by decide
example : SQLTemplateSystem.get_column_alias "amount" = "金额" := by decide
example : SQLTemplateSystem.get_column_alias "product" = "product" := by decide

namespace SQLTemplateSystem

/-- The tail of `generate_from_template`:
`try: sql = sql_template.format(**template_params); sql = re.sub(...);
return sql.strip() except: return f"SELECT * FROM \x60{selected_table}\x60 LIMIT 10"`.
A `KeyError` from an unbound slot (`pyFormat` = `none`) selects the
degraded query. -/
def finishTemplate (sql_template : String) (selected_table : String)
    (args : List (String × String)) : String :=
  match pyFormat sql_template args with
  | some s => ((⟨pyStrip (collapseBlank s)⟩ : String))
  | none => "SELECT * FROM `" ++ selected_table ++ "` LIMIT 10"

/-- `SQLTemplateSystem.generate_from_template` (sql_template.py:154-273)
for an intent that is a `TEMPLATES` key (the public wrapper normalizes).
The `fuel` bounds the redispatch depth: `time_series`, `ranking` and
`related_query` may re-enter the synthesizer once, with a target that
never redispatches, so a depth of 2 covers every run and the fuel-0
branch is unreachable. -/
def gft_coreF : Nat → String → Catalog → ExtractedParams → String
  | 0, _, _, _ => "SELECT 1"
  | fuel + 1, intent, table_info, extracted_params =>
  let sql_template := ((TEMPLATES.find? (fun p => p.1 = intent)).map (·.2)).getD ""
  let tables := table_info.map (·.1)
  if tables = [] then "SELECT 1"
  else
    let selected_table := tables.headD ""
    let columns := ((table_info.find? (fun p => p.1 = selected_table)).map (·.2)).getD []
    let numeric_cols := (columns.filter (fun c =>
      c.category = "integer" ∨ c.category = "numeric")).map (·.name)
    let text_cols := (columns.filter (fun c => c.category = "text")).map (·.name)
    let date_cols := (columns.filter (fun c => c.category = "datetime")).map (·.name)
    let baseParams : List (String × String) :=
      [("table", selected_table),
       ("limit", "LIMIT " ++ toString (extracted_params.limit_value.getD 100))]
    let finish : List (String × String) → String :=
      finishTemplate sql_template selected_table
    if intent = "basic_select" then
      let select_cols := (columns.take 5).map (fun col =>
        "`" ++ col.name ++ "` as `" ++ get_column_alias col.name ++ "`")
      finish (baseParams ++
        [("columns", if select_cols ≠ [] then String.intercalate ", " select_cols else "*"),
         ("where", ""), ("group_by", ""), ("order_by", "ORDER BY 1")])
    else if intent = "summary_stats" then
      let slot :=
        if numeric_cols ≠ [] then
          String.intercalate ", " ((numeric_cols.take 3).map (fun col =>
            -- the inner format provides its only slot, so it cannot fail
            (⟨(pyFormat numeric_columns_template [("column", col)]).getD [] ⟩ : String)))
        else "NULL as 无数值列"
      finish (baseParams ++ [("numeric_columns", slot)])
    else if intent = "group_by_stats" then
      let group_column :=
        if text_cols ≠ [] then text_cols.headD ""
        else if columns ≠ [] then (columns.headD { name := "" }).name
        else "id"
      let agg :=
        if numeric_cols ≠ [] then
          String.intercalate ", " ((numeric_cols.take 2).map (fun col =>
            "SUM(`" ++ col ++ "`) as `" ++ col ++ "_总和`, AVG(`" ++ col ++ "`) as `" ++
              col ++ "_平均`"))
        else "NULL as 无数值列"
      finish (baseParams ++ [("group_column", group_column), ("agg_columns", agg)])
    else if intent = "time_series" then
      if date_cols ≠ [] then
        let agg :=
          if numeric_cols ≠ [] then
            String.intercalate ", " ((numeric_cols.take 2).map (fun col =>
              "SUM(`" ++ col ++ "`) as `" ++ col ++ "_总计`"))
          else "COUNT(*) as 记录数"
        finish (baseParams ++ [("date_column", date_cols.headD ""), ("agg_columns", agg)])
      else gft_coreF fuel "group_by_stats" table_info extracted_params
    else if intent = "ranking" then
      if numeric_cols ≠ [] ∧ text_cols ≠ [] then
        finish (baseParams ++ [("ranking_column", text_cols.headD ""),
          ("value_column", numeric_cols.headD "")])
      else if numeric_cols ≠ [] ∧ columns ≠ [] then
        finish (baseParams ++ [("ranking_column", (columns.headD { name := "" }).name),
          ("value_column", numeric_cols.headD "")])
      else gft_coreF fuel "basic_select" table_info extracted_params
    else if intent = "related_query" then
      if tables.length ≥ 2 then
        let table1 := tables.headD ""
        let table2 := (tables.drop 1).headD ""
        let t1cols := (((table_info.find? (fun p => p.1 = table1)).map (·.2)).getD []).map (·.name)
        let t2cols := (((table_info.find? (fun p => p.1 = table2)).map (·.2)).getD []).map (·.name)
        -- `set(t1).intersection(set(t2))` with implementation-defined
        -- element order, modelled as the first common element; the value
        -- is unobservable because the `where` slot below is unbound and
        -- `finish` always degrades for this template.
        let joinKey : Option String := t1cols.find? (fun c => t2cols.contains c)
        let jk1 := match joinKey with
          | some k => k
          | none => if t1cols ≠ [] then t1cols.headD "" else "id"
        let jk2 := match joinKey with
          | some k => k
          | none => if t2cols ≠ [] then t2cols.headD "" else "id"
        finish (baseParams ++ [("table1", table1), ("table2", table2),
          ("join_key1", jk1), ("join_key2", jk2),
          ("t1_column", if t1cols ≠ [] then t1cols.headD "" else "id"),
          ("t2_column", if t2cols ≠ [] then t2cols.headD "" else "id")])
      else gft_coreF fuel "group_by_stats" table_info extracted_params
    else finish baseParams

/-- `SQLTemplateSystem.generate_from_template`: unknown intents are
normalized to `basic_select` before dispatch. -/
def generate_from_template (intent : String) (table_info : Catalog)
    (extracted_params : ExtractedParams) : String :=
  gft_coreF 2 (if TEMPLATES.any (fun p => p.1 = intent) then intent else "basic_select")
    table_info extracted_params

end SQLTemplateSystem

/-- The column-descriptor list of the scenario catalog
`sales(product text, amount numeric)` used by Scenario A. -/
def salesColumns : List SQLValidator.ColumnDescriptor :=
  [{ name := "product", type := "text", category := "text" },
   { name := "amount", type := "decimal(10,2)", category := "numeric" }]

def salesCatalog : Catalog := [("sales", salesColumns)]

-- template synthesis sanity checks
example : SQLTemplateSystem.generate_from_template "ranking" salesCatalog
      { limit_value := some 10 } =
    "SELECT \n    `product` as 名称,\n    `amount` as 数值\nFROM `sales`\nWHERE `amount` IS NOT NULL\nORDER BY `amount` DESC\nLIMIT 10" := by
  decide
example : SQLTemplateSystem.generate_from_template "summary_stats" salesCatalog
      { limit_value := some 10 } = "SELECT * FROM `sales` LIMIT 10" := by decide
example : SQLTemplateSystem.generate_from_template "group_by_stats" salesCatalog
      { limit_value := some 10 } = "SELECT * FROM `sales` LIMIT 10" := by decide
example : SQLTemplateSystem.generate_from_template "basic_select" salesCatalog
      { limit_value := some 10 } =
    "SELECT `product` as `product`, `amount` as `金额` FROM `sales`   ORDER BY 1 LIMIT 10" := by
  decide

/-! ### LLMAnalyst (llm_integration.py:329-1191)

`OLLAMA_CONFIG` is imported from a `config` module that is not part of
the repository's sources; its `base_url`/`model` values are therefore
kept as explicit parameters (`llmConfigured` models the truthiness test
`if self.base_url and self.model and self.base_url != ""`). -/

/-- Outcome of one `requests.post` call to the Generation Service,
the only external effect of the pipeline. -/
inductive GenResult where
  | ok (content : String)
  | timeout
  | connError
  | httpError (status : Nat) (text : String)
  | malformed (raw : String)
  | exceptionMsg (msg : String)
deriving Repr, DecidableEq

namespace LLMAnalyst

/-- `LLMAnalyst._call_ollama` (llm_integration.py:341-406).  For a fixed
outcome the retry loop returns the same string on the last attempt, so
retries collapse; every branch returns (the trailing
`"所有重试尝试都失败了"` is unreachable). -/
def call_ollama (baseUrl : String) : GenResult → String
  | .ok content => (⟨pyStrip content.data⟩ : String)
  | .timeout => "请求超时，请检查Ollama服务状态"
  | .connError => "无法连接到Ollama服务，请确保Ollama正在运行在 " ++ baseUrl
  | .httpError status text => "Ollama API错误: 状态码 " ++ toString status ++ ", 响应: " ++ text
  | .malformed raw => "响应格式错误: " ++ raw
  | .exceptionMsg msg => "未知错误: " ++ msg

/-- `LLMAnalyst._generate_safe_fallback_sql` (llm_integration.py:583-592). -/
def generate_safe_fallback_sql (table_schemas : Catalog) : String :=
  match table_schemas with
  | [] => "SELECT 1"
  | (t, schema) :: _ => SQLValidator.generate_safe_sql t schema

/-- Splits `l = mid ++ rest` at the first position where the lookahead
`(?=$|;)` holds (`$` without `re.MULTILINE`: end of string, or just
before a final newline). -/
def lazyEndSplit : List Char → List Char × List Char
  | [] => ([], [])
  | c :: rest =>
    if c = ';' then ([], c :: rest)
    else if c = '\n' ∧ rest = [] then ([], [c])
    else
      let p := lazyEndSplit rest
      (c :: p.1, p.2)

/-- Model of `re.sub(r'(ORDER BY.*?)(?=$|;)', r'\1 LIMIT 50', sql,
flags=re.IGNORECASE | re.DOTALL)`: after each (case-insensitive)
`ORDER BY`, the lazy group ends at the first `;`/end-of-string
lookahead position, where ` LIMIT 50` is inserted. -/
def orderByLimitSubF (fuel : Nat) : List Char → List Char :=
  match fuel with
  | 0 => fun l => l
  | fuel + 1 => fun l =>
    match l with
    | [] => []
    | c :: rest =>
      if listIsPrefixCI "ORDER BY".data (c :: rest) then
        let body := (c :: rest).drop 8
        let p := lazyEndSplit body
        ((c :: rest).take 8 ++ p.1) ++ " LIMIT 50".data ++ orderByLimitSubF fuel p.2
      else c :: orderByLimitSubF fuel rest

def orderByLimitSub (l : List Char) : List Char := orderByLimitSubF l.length l

/-- `LLMAnalyst._validate_and_fix_sql` (llm_integration.py:537-581).
The surrounding `try ... except: return sql` is dead in this total
model; `validate_sql_structure` is called only for its log output. -/
def validate_and_fix_sql (sql : String) (table_schemas : Catalog) : String :=
  let tables := SQLValidator.extract_tables_from_sql sql
  if tables = [] then generate_safe_fallback_sql table_schemas
  else
    let sql2 := tables.foldl (fun acc t =>
      match table_schemas.find? (fun p => p.1 = t) with
      | some p =>
        let avail := p.2.map (·.name)
        let fx := SQLValidator.fix_column_names acc avail
        if fx.2 ≠ [] then fx.1 else acc
      | none => acc) sql
    if ¬ isSubstr "LIMIT".data (pyUpper sql2.data) ∧ isSubstr "SELECT".data (pyUpper sql2.data) then
      if isSubstr "ORDER BY".data (pyUpper sql2.data) then (⟨orderByLimitSub sql2.data⟩ : String)
      else sql2 ++ " LIMIT 50"
    else sql2

/-- `LLMAnalyst._generate_sql_from_template` (llm_integration.py:511-535).
The `except` branch is dead in this total model. -/
def generate_sql_from_template (query : String) (table_schemas : Catalog) : String :=
  let r := SQLTemplateSystem.classify_query_intent query
  let template_sql := SQLTemplateSystem.generate_from_template r.1 table_schemas
    r.2.extracted_params
  let desc := ((SQLTemplateSystem.template_descriptions.find? (fun p => p.1 = r.1)).map
    (·.2)).getD "查询"
  "-- 基于模板生成: " ++ desc ++ "\n" ++ template_sql

/-- Model of `re.sub(r'```(?:sql)?|```', '', s)`: every code fence,
optionally tagged `sql`, is removed. -/
def removeCodeFencesF (fuel : Nat) : List Char → List Char :=
  match fuel with
  | 0 => fun l => l
  | fuel + 1 => fun l =>
    match l with
    | [] => []
    | c :: rest =>
      if listIsPrefix [btick, btick, btick] (c :: rest) then
        if listIsPrefix "sql".data ((c :: rest).drop 3) then
          removeCodeFencesF fuel ((c :: rest).drop 6)
        else removeCodeFencesF fuel ((c :: rest).drop 3)
      else c :: removeCodeFencesF fuel rest

def removeCodeFences (l : List Char) : List Char := removeCodeFencesF l.length l

/-- Model of `re.search(r'(SELECT\s+.*?)(?=;|$)', s,
re.IGNORECASE | re.DOTALL)`: from the first `SELECT` followed by
whitespace, up to the first `;`/end lookahead position after the
(greedily consumed) whitespace run. -/
def extractSelectStmtF (fuel : Nat) : List Char → Option (List Char) :=
  match fuel with
  | 0 => fun _ => none
  | fuel + 1 => fun l =>
    match l with
    | [] => none
    | c :: rest =>
      if listIsPrefixCI "SELECT".data (c :: rest) then
        let after := (c :: rest).drop 6
        let ws := after.takeWhile isPySpace
        if ws ≠ [] then
          let body := after.drop ws.length
          some ((c :: rest).take (6 + ws.length + (lazyEndSplit body).1.length))
        else extractSelectStmtF fuel rest
      else extractSelectStmtF fuel rest

def extractSelectStmt (l : List Char) : Option (List Char) := extractSelectStmtF l.length l

/-- `LLMAnalyst._optimize_sql_with_llm` (llm_integration.py:594-638).
The prompt text flows only into the Generation Service request, whose
outcome is the oracle, so it is not materialised here. -/
def optimize_sql_with_llm (baseUrl : String) (oracle : GenResult)
    (template_sql : String) : String :=
  let sql_query := pyStrip (call_ollama baseUrl oracle).data
  let sql_query := pyStrip (removeCodeFences sql_query)
  let sql_query :=
    match extractSelectStmt sql_query with
    | some m => pyStrip m
    | none => sql_query
  if ¬ listIsPrefix "SELECT".data (pyUpper sql_query) then template_sql
  else (⟨sql_query⟩ : String)

/-- `LLMAnalyst.generate_sql_query` (llm_integration.py:459-509).
`auto_fix_columns` is `True` in `__init__`; `llmConfigured` is the
truthiness of the configured `base_url`/`model`; the outer `except`
(degrading to the safe fallback) is dead in this total model. -/
def generate_sql_query (llmConfigured : Bool) (baseUrl : String) (oracle : GenResult)
    (natural_language_query : String) (table_schemas : Catalog) : String :=
  if strStrip natural_language_query = "" then "请输入查询问题"
  else
    let template_sql := generate_sql_from_template natural_language_query table_schemas
    let template_sql := validate_and_fix_sql template_sql table_schemas
    if llmConfigured then
      let optimized := optimize_sql_with_llm baseUrl oracle template_sql
      let optimized := validate_and_fix_sql optimized table_schemas
      if validate_sql_quality optimized template_sql then optimized else template_sql
    else template_sql

/-- `LLMAnalyst._improve_sql_with_llm_feedback` (llm_integration.py:1129-1190). -/
def improve_sql_with_llm_feedback (baseUrl : String) (oracle : GenResult)
    (original_sql user_feedback : String) (table_schemas : Catalog) : String :=
  let improved := pyStrip (call_ollama baseUrl oracle).data
  let improved := pyStrip (removeCodeFences improved)
  let improved :=
    match extractSelectStmt improved with
    | some m => pyStrip m
    | none => improved
  let improved := validate_and_fix_sql (⟨improved⟩ : String) table_schemas
  let _ := original_sql
  "-- 根据用户反馈改进的SQL\n-- 反馈: " ++ (⟨user_feedback.data.take 100⟩ : String) ++ "\n" ++
    improved

/-- `LLMAnalyst.improve_sql_with_feedback` (llm_integration.py:1102-1127).
The outer `except` (returning `original_sql`) is dead in this total
model. -/
def improve_sql_with_feedback (baseUrl : String) (oracle : GenResult)
    (original_sql user_feedback : String) (table_schemas : Catalog) : String :=
  if strStrip original_sql = "" then "原始SQL为空"
  else if strStrip user_feedback = "" then original_sql
  else
    let fixed_sql := validate_and_fix_sql original_sql table_schemas
    if isSubstr "Unknown column".data user_feedback.data ∧ fixed_sql ≠ original_sql then
      "-- 自动修正列名错误\n" ++ fixed_sql
    else improve_sql_with_llm_feedback baseUrl oracle original_sql user_feedback table_schemas

end LLMAnalyst

-- pipeline sanity checks
example : LLMAnalyst.generate_sql_query false "" .timeout "hello" salesCatalog =
    "-- 基于模板生成: 基础查询\nSELECT `product` as `product`, `amount` as `金额` FROM `sales`   ORDER BY 1 LIMIT 10" := by
  decide
example : (SQLValidator.validate_sql_structure
    (LLMAnalyst.generate_sql_query false "" .timeout "hello" salesCatalog)).1 = false := by decide
example : LLMAnalyst.improve_sql_with_feedback "http://localhost:11434" .timeout
      "SELECT `product` FROM `sales` LIMIT 5" "请加上平均值" salesCatalog =
    "-- 根据用户反馈改进的SQL\n-- 反馈: 请加上平均值\nSELECT `amount`, `product` FROM `sales` LIMIT 50" := by
  decide

/-! ### Shared predicates for the validator and quality-gate rules -/

def dangerous_keywords : List String :=
  ["DROP", "DELETE", "UPDATE", "INSERT", "ALTER", "CREATE", "TRUNCATE"]

/-- A dangerous keyword occurs as a space-delimited standalone token
(the `f' {kw} ' in f' {sql_upper} '` test of the source). -/
def has_danger_token (sql : String) : Bool :=
  dangerous_keywords.any (fun kw =>
    isSubstr (' ' :: kw.data ++ [' ']) (' ' :: pyUpper sql.data ++ [' ']))

lemma foldl_warn_filter (hit : String → Bool) (w : String → String) :
    ∀ (l : List String) (init : List String),
      l.foldl (fun acc kw => if hit kw then acc ++ [w kw] else acc) init =
        init ++ (l.filter hit).map w := by
  intro l
  induction l with
  | nil => intro init; simp
  | cons kw rest ih =>
    intro init
    by_cases hkw : hit kw <;> simp [List.foldl_cons, hkw, ih]

/-- **C2** (amended).  `validate_sql_structure` returns
`isStructurallyValid = false` exactly when *any* rule fires — including
the two warning-only rules of the claim (unbalanced parentheses and
missing `LIMIT`), because the function returns `len(warnings) == 0`.
Validity holds iff: the query starts with `SELECT` after stripping,
contains `FROM`, has no standalone dangerous keyword, has balanced
parentheses, and contains `LIMIT` whenever it contains `SELECT`. -/
theorem C2_validator_invalid_iff_any_rule (sql : String) :
    (SQLValidator.validate_sql_structure sql).1 = true ↔
      (listIsPrefix "SELECT".data (pyStrip (pyUpper sql.data)) = true ∧
       isSubstr "FROM".data (pyUpper sql.data) = true ∧
       has_danger_token sql = false ∧
       sql.data.count '(' = sql.data.count ')' ∧
       (isSubstr "LIMIT".data (pyUpper sql.data) = true ∨
        isSubstr "SELECT".data (pyUpper sql.data) = false)) := by
  unfold SQLValidator.validate_sql_structure has_danger_token
  simp only [foldl_warn_filter]
  by_cases b1 : listIsPrefix "SELECT".data (pyStrip (pyUpper sql.data)) = true <;>
  by_cases b2 : isSubstr "FROM".data (pyUpper sql.data) = true <;>
  by_cases b3 : dangerous_keywords.any (fun kw =>
      isSubstr (' ' :: kw.data ++ [' ']) (' ' :: pyUpper sql.data ++ [' '])) = true <;>
  by_cases b4 : sql.data.count '(' = sql.data.count ')' <;>
  by_cases b5 : isSubstr "LIMIT".data (pyUpper sql.data) = true <;>
  by_cases b6 : isSubstr "SELECT".data (pyUpper sql.data) = true <;>
    simp_all [dangerous_keywords, List.isEmpty_iff, List.filter_eq_nil_iff]

/-- **C2** counterexample to the claim as stated: `SELECT a FROM t`
violates only the warning-only "contains LIMIT" rule, yet
`isStructurallyValid` comes back `false`. -/
theorem C2_counterexample :
    (SQLValidator.validate_sql_structure "SELECT a FROM t").1 = false ∧
    listIsPrefix "SELECT".data (pyStrip (pyUpper "SELECT a FROM t".data)) = true ∧
    isSubstr "FROM".data (pyUpper "SELECT a FROM t".data) = true ∧
    has_danger_token "SELECT a FROM t" = false ∧
    "SELECT a FROM t".data.count '(' = "SELECT a FROM t".data.count ')' := by
  decide

/-- The Quality Gate predicate exactly as the claim states it, including
the "length less than half the baseline's length" rule that the claim
lists (`spec` wording, for comparison with the code). -/
def quality_gate_spec_rejects (c b : String) : Bool :=
  decide ((pyStrip c.data).length < 10) ||
  !(isSubstr "SELECT".data (pyUpper c.data)) ||
  !(isSubstr "FROM".data (pyUpper c.data)) ||
  has_danger_token c ||
  decide (pyStrip (pyUpper c.data) = "SELECT 1".data) ||
  decide (2 * c.data.length < b.data.length)

/-- **C4** counterexample to the claim as stated: a healthy 15-character
candidate against a 56-character baseline is *shorter than half the
baseline*, so the claim says the baseline must win, but
`_validate_sql_quality` accepts the candidate — the code has no
length-ratio rule at all. -/
theorem C4_counterexample :
    ¬ (LLMAnalyst.validate_sql_quality "SELECT a FROM t"
          "SELECT `aaaaaaaaaaaaaaaaa` FROM `bbbbbbbbbbbb` LIMIT 50" = false ↔
       quality_gate_spec_rejects "SELECT a FROM t"
          "SELECT `aaaaaaaaaaaaaaaaa` FROM `bbbbbbbbbbbb` LIMIT 50" = true) := by
  decide

/-- **C4** (amended).  The Quality Gate selects the baseline exactly when
the optimized candidate is shorter than 10 characters after stripping,
lacks `SELECT` or `FROM`, contains a dangerous keyword as a standalone
token, or is the degenerate `SELECT 1`; there is no length-ratio rule.
The selection step returns one of the two candidate texts unchanged. -/
theorem C4_quality_gate_characterization (c b : String) :
    (LLMAnalyst.validate_sql_quality c b = false ↔
      ((pyStrip c.data).length < 10 ∨
       isSubstr "SELECT".data (pyUpper c.data) = false ∨
       isSubstr "FROM".data (pyUpper c.data) = false ∨
       has_danger_token c = true ∨
       pyStrip (pyUpper c.data) = "SELECT 1".data)) ∧
    ((if LLMAnalyst.validate_sql_quality c b then c else b) = c ∨
     (if LLMAnalyst.validate_sql_quality c b then c else b) = b) := by
  constructor
  · unfold LLMAnalyst.validate_sql_quality has_danger_token dangerous_keywords
    by_cases b0 : c = ""
    · subst b0
      simp [pyStrip, pyUpper]
    · by_cases b1 : (pyStrip c.data).length < 10 <;>
      by_cases b2 : isSubstr "SELECT".data (pyUpper c.data) = true <;>
      by_cases b3 : isSubstr "FROM".data (pyUpper c.data) = true <;>
      by_cases b4 : (["DROP", "DELETE", "UPDATE", "INSERT", "ALTER", "CREATE", "TRUNCATE"].any
        (fun kw => isSubstr (' ' :: kw.data ++ [' ']) (' ' :: pyUpper c.data ++ [' ']))) = true <;>
      by_cases b5 : pyStrip (pyUpper c.data) = "SELECT 1".data <;>
        simp_all
  · by_cases h : LLMAnalyst.validate_sql_quality c b <;> simp [h]

/-! ### C5: the matching-strategy chain of `find_similar_column` -/

def exact_match_strategy (invalid : String) (avail : List String) : Option String :=
  avail.find? (fun col => pyLower col.data = pyLower invalid.data)

def substring_match_strategy (invalid : String) (avail : List String) : Option String :=
  avail.find? (fun col =>
    isSubstr (pyLower invalid.data) (pyLower col.data) ||
    isSubstr (pyLower col.data) (pyLower invalid.data))

def similarity_match_strategy (invalid : String) (avail : List String) : Option String :=
  get_close_matches1 invalid avail

def synonym_match_strategy (invalid : String) (avail : List String) : Option String :=
  match column_mappings.find? (fun p => p.1 = invalid) with
  | some p => p.2.find? (fun cand => avail.contains cand)
  | none => none

/-- The ordered strategy chain as the *source* applies it: exact match,
substring containment, difflib similarity, then the synonym dictionary. -/
def match_strategies : List (String → List String → Option String) :=
  [exact_match_strategy, substring_match_strategy,
   similarity_match_strategy, synonym_match_strategy]

/-- The ordered strategy chain as the *claim* states it: exact match,
substring containment, the synonym dictionary, then similarity. -/
def match_strategies_spec : List (String → List String → Option String) :=
  [exact_match_strategy, substring_match_strategy,
   synonym_match_strategy, similarity_match_strategy]

/-- First strategy producing a match wins. -/
def first_strategy_match (strategies : List (String → List String → Option String))
    (invalid : String) (avail : List String) : Option String :=
  strategies.foldl (fun acc s =>
    match acc with
    | some c => some c
    | none => s invalid avail) none

/-- **C5** counterexample to the claim as stated: for the localized
"order quantity" key `订购数量` with available columns
`["订数量购", "quantity"]`, the code's difflib stage (ratio 0.75 ≥ 0.6
against `订数量购`) fires *before* the synonym dictionary, returning
`订数量购`; the claim's order would consult the synonym dictionary first
and return `quantity`. -/
theorem C5_counterexample :
    SQLValidator.find_similar_column "订购数量" ["订数量购", "quantity"] = some "订数量购" ∧
    first_strategy_match match_strategies_spec "订购数量" ["订数量购", "quantity"] =
      some "quantity" ∧
    SQLValidator.find_similar_column "订购数量" ["订数量购", "quantity"] ≠
      first_strategy_match match_strategies_spec "订购数量" ["订数量购", "quantity"] := by
  refine ⟨by decide, by decide, by decide⟩

/-- **C5** (amended).  `find_similar_column` is the first-match chain of
the four strategies in the *source* order — exact case-insensitive
match, substring containment either direction, difflib similarity with
the fixed 0.6 cutoff, then the fixed domain-synonym dictionary — and
returns `None` when all four fail (also on an empty column list, where
every strategy fails). -/
theorem C5_strategy_order (invalid : String) (avail : List String) :
    SQLValidator.find_similar_column invalid avail =
      first_strategy_match match_strategies invalid avail := by
  unfold SQLValidator.find_similar_column first_strategy_match match_strategies
  by_cases hnil : avail = []
  · subst hnil
    simp [exact_match_strategy, substring_match_strategy, similarity_match_strategy,
      synonym_match_strategy, get_close_matches1]
    cases h : column_mappings.find? (fun p => p.1 = invalid) <;> simp [h]
    exact (List.find?_eq_none.mpr (by simp)).symm
  · simp only [if_neg hnil, List.foldl_cons, List.foldl_nil]
    cases h1 : exact_match_strategy invalid avail with
    | some c => simp [exact_match_strategy] at h1; simp [h1]
    | none =>
      have h1' := h1; unfold exact_match_strategy at h1'
      rw [h1']
      cases h2 : substring_match_strategy invalid avail with
      | some c => simp [substring_match_strategy] at h2; simp [h1, h2]
      | none =>
        have h2' := h2; unfold substring_match_strategy at h2'
        rw [h2']
        cases h3 : similarity_match_strategy invalid avail with
        | some c => simp [similarity_match_strategy] at h3; simp [h1, h2, h3]
        | none =>
          have h3' := h3; unfold similarity_match_strategy at h3'
          rw [h3']
          simp [h1, h2, h3, synonym_match_strategy]

/-- A fold whose step skips every element satisfying `p` leaves the
accumulator unchanged when all elements satisfy `p`. -/
lemma foldl_skip_all {α β : Type} (p : β → Bool) (g : α → β → α) :
    ∀ (l : List β) (acc : α), (∀ c ∈ l, p c = true) →
      l.foldl (fun a c => if p c then a else g a c) acc = acc := by
  intro l
  induction l with
  | nil => intro acc _; rfl
  | cons c rest ih =>
    intro acc hmem
    rw [List.foldl_cons, if_pos (hmem c (List.mem_cons_self c rest))]
    exact ih acc (fun x hx => hmem x (List.mem_cons_of_mem c hx))

/-- **C6** (confirmed).  Identifier Repair is idempotent on already-valid
queries: when every identifier extracted from the query is in the
available column list, `fix_column_names` returns the query text
unchanged with an empty corrections map, and applying it twice equals
applying it once. -/
theorem C6_fix_column_names_idempotent (sql : String) (avail : List String)
    (h : ∀ c ∈ SQLValidator.extract_columns_from_sql sql, avail.contains c = true) :
    SQLValidator.fix_column_names sql avail = (sql, []) ∧
    SQLValidator.fix_column_names (SQLValidator.fix_column_names sql avail).1 avail =
      SQLValidator.fix_column_names sql avail := by
  have h1 : SQLValidator.fix_column_names sql avail = (sql, []) := by
    unfold SQLValidator.fix_column_names
    exact foldl_skip_all (fun column => avail.contains column)
      (fun acc column =>
        match SQLValidator.find_similar_column column avail with
        | some similar =>
          ((⟨replaceWordCI column.data (btick :: similar.data ++ [btick]) false
            (replaceAllCI (btick :: column.data ++ [btick])
              (btick :: similar.data ++ [btick]) acc.1.data)⟩ : String),
            acc.2 ++ [(column, similar)])
        | none => acc)
      (SQLValidator.extract_columns_from_sql sql) (sql, []) h
  exact ⟨h1, by rw [h1, h1]⟩

/-- **C6** witness: a concrete already-valid query. -/
theorem C6_witness :
    (∀ c ∈ SQLValidator.extract_columns_from_sql "SELECT product FROM sales LIMIT 5",
      (["product"] : List String).contains c = true) ∧
    SQLValidator.fix_column_names "SELECT product FROM sales LIMIT 5" ["product"] =
      ("SELECT product FROM sales LIMIT 5", []) :=
  ⟨by decide, (C6_fix_column_names_idempotent "SELECT product FROM sales LIMIT 5" ["product"]
    (by decide)).1⟩

/-- **C8** counterexample to the claim as stated: for the request
"top 5 products by sales amount" the extractor only recognises the
localized `前N名` phrasing, so the extracted limit is the default 10,
not 5, and the generated ranking query ends in `LIMIT 10`. -/
theorem C8_counterexample :
    (SQLTemplateSystem.extract_query_params "top 5 products by sales amount").limit_value ≠
      some 5 ∧
    ¬ SQLTemplateSystem.listEndsWith "LIMIT 5".data
      (SQLTemplateSystem.generate_from_template "ranking" salesCatalog
        (SQLTemplateSystem.extract_query_params "top 5 products by sales amount")).data =
      true := by
  refine ⟨by decide, by decide⟩

/-- **C8** (amended).  Scenario A against `sales(product text,
amount numeric)`: the intent is `ranking` and the sort order `DESC` as
claimed, but the extracted limit is the default 10 (the English "top 5"
is not parsed); the generated query orders by `` `amount` `` descending
and ends with `LIMIT 10`. -/
theorem C8_scenario_a :
    (SQLTemplateSystem.classify_query_intent "top 5 products by sales amount").1 = "ranking" ∧
    (SQLTemplateSystem.extract_query_params "top 5 products by sales amount").sort_order =
      "DESC" ∧
    (SQLTemplateSystem.extract_query_params "top 5 products by sales amount").limit_value =
      some 10 ∧
    SQLTemplateSystem.generate_from_template "ranking" salesCatalog
        (SQLTemplateSystem.extract_query_params "top 5 products by sales amount") =
      "SELECT \n    `product` as 名称,\n    `amount` as 数值\nFROM `sales`\nWHERE `amount` IS NOT NULL\nORDER BY `amount` DESC\nLIMIT 10" ∧
    isSubstr "ORDER BY `amount` DESC".data
      (SQLTemplateSystem.generate_from_template "ranking" salesCatalog
        (SQLTemplateSystem.extract_query_params "top 5 products by sales amount")).data =
      true ∧
    SQLTemplateSystem.listEndsWith "LIMIT 10".data
      (SQLTemplateSystem.generate_from_template "ranking" salesCatalog
        (SQLTemplateSystem.extract_query_params "top 5 products by sales amount")).data =
      true := by
  refine ⟨by decide, by decide, by decide, by decide, by decide, by decide⟩

namespace SQLTemplateSystem

/-- The claim's tie-break: the *first* intent in priority order whose
pattern set matches (default `basic_select`). -/
def first_match_intent (query : String) : String :=
  ((keyword_patterns.find? (fun p =>
    p.2.any (matchesPattern (pyLower query.data)))).map (·.1)).getD "basic_select"

/-- What the loop actually computes: the *last* intent in the fixed
order with a matching pattern (default `basic_select`). -/
def last_match_intent (query : String) : String :=
  ((keyword_patterns.reverse.find? (fun p =>
    p.2.any (matchesPattern (pyLower query.data)))).map (·.1)).getD "basic_select"

/-- Some intent other than `basic_select` has a pattern hit. -/
def non_basic_match (query : String) : Bool :=
  keyword_patterns.any (fun p =>
    decide (p.1 ≠ "basic_select") && p.2.any (matchesPattern (pyLower query.data)))

end SQLTemplateSystem

/-- **C7** counterexample to the claim as stated: `统计最高` matches both
`summary_stats` (`统计`) and `ranking` (`最高`); the claimed
first-in-priority-order tie-break would give `summary_stats`, but the
loop keeps overwriting and returns the *last* match, `ranking`.  Also,
`查询` hits a `basic_select` pattern yet gets confidence 0, not 0.8. -/
theorem C7_counterexample :
    (SQLTemplateSystem.classify_query_intent "统计最高").1 = "ranking" ∧
    SQLTemplateSystem.first_match_intent "统计最高" = "summary_stats" ∧
    (SQLTemplateSystem.classify_query_intent "统计最高").1 ≠
      SQLTemplateSystem.first_match_intent "统计最高" ∧
    SQLTemplateSystem.matchesPattern (pyLower "查询".data)
      (SQLTemplateSystem.TriggerPattern.lit "查询") = true ∧
    (SQLTemplateSystem.classify_query_intent "查询").2.confidence = 0 := by
  refine ⟨by decide, by decide, by decide, by decide, by decide⟩

set_option maxHeartbeats 3200000 in
/-- **C7** (amended).  For every input, `classify_query_intent` returns
the *last* intent in the fixed order whose trigger-pattern set matches
(still one of the six fixed intents, defaulting to `basic_select` when
none match), and the confidence is 0.8 exactly when some intent other
than `basic_select` has a pattern hit — a hit on `basic_select` alone
leaves the confidence at 0.0. -/
theorem C7_classifier_characterization (query : String) :
    (SQLTemplateSystem.classify_query_intent query).1 =
      SQLTemplateSystem.last_match_intent query ∧
    (SQLTemplateSystem.classify_query_intent query).2.confidence =
      (if SQLTemplateSystem.non_basic_match query then (4 : ℚ)/5 else 0) ∧
    (SQLTemplateSystem.classify_query_intent query).1 ∈
      ["summary_stats", "group_by_stats", "time_series", "ranking",
       "related_query", "basic_select"] := by
  unfold SQLTemplateSystem.classify_query_intent SQLTemplateSystem.last_match_intent
    SQLTemplateSystem.non_basic_match SQLTemplateSystem.keyword_patterns
  by_cases h1 : ([.lit "总计", .lit "合计", .lit "汇总", .lit "总和", .lit "平均",
      .lit "最大值", .lit "最小值", .lit "统计", .lit "数量"] :
      List SQLTemplateSystem.TriggerPattern).any
      (SQLTemplateSystem.matchesPattern (pyLower query.data)) = true <;>
  by_cases h2 : ([.lit "分组", .lit "分类", .twoPart "按" "统计", .twoPart "各个" "的",
      .lit "每种", .lit "每类", .lit "各地区"] :
      List SQLTemplateSystem.TriggerPattern).any
      (SQLTemplateSystem.matchesPattern (pyLower query.data)) = true <;>
  by_cases h3 : ([.lit "时间", .lit "日期", .lit "月份", .lit "季度", .lit "年份",
      .lit "趋势", .lit "每天", .lit "每月", .lit "逐年"] :
      List SQLTemplateSystem.TriggerPattern).any
      (SQLTemplateSystem.matchesPattern (pyLower query.data)) = true <;>
  by_cases h4 : ([.lit "排名", .twoPart "前" "名", .lit "最高", .lit "最低", .lit "最多",
      .lit "最少", .lit "最好", .lit "最差", .lit "top"] :
      List SQLTemplateSystem.TriggerPattern).any
      (SQLTemplateSystem.matchesPattern (pyLower query.data)) = true <;>
  by_cases h5 : ([.lit "关联", .lit "关系", .lit "连接", .lit "涉及", .twoPart "和" "一起",
      .lit "同时"] : List SQLTemplateSystem.TriggerPattern).any
      (SQLTemplateSystem.matchesPattern (pyLower query.data)) = true <;>
  by_cases h6 : ([.lit "查询", .lit "查看", .lit "显示", .lit "列出", .lit "找",
      .lit "搜索"] : List SQLTemplateSystem.TriggerPattern).any
      (SQLTemplateSystem.matchesPattern (pyLower query.data)) = true <;>
    simp_all

/-- The template synthesizer reads nothing from the extracted parameters
except `limit_value`. -/
lemma gft_coreF_limit_value_only :
    ∀ (fuel : Nat) (intent : String) (ti : Catalog)
      (p q : SQLTemplateSystem.ExtractedParams),
      p.limit_value = q.limit_value →
      SQLTemplateSystem.gft_coreF fuel intent ti p =
        SQLTemplateSystem.gft_coreF fuel intent ti q := by
  intro fuel
  induction fuel with
  | zero => intros; rfl
  | succ n ih =>
    intro intent ti p q h
    simp only [SQLTemplateSystem.gft_coreF]
    rw [h, ih "group_by_stats" ti p q h, ih "basic_select" ti p q h]

/-- **C10** (confirmed).  The generated SQL text is independent of the
extracted `sort_order`: runs differing only in `sort_order` produce
identical query strings, and a ranking query orders by the value column
`DESC` even when minimum/lowest phrasing set `sort_order` to `ASC`. -/
theorem C10_sort_order_never_read :
    (∀ (intent : String) (ti : Catalog) (p : SQLTemplateSystem.ExtractedParams)
      (s1 s2 : String),
      SQLTemplateSystem.generate_from_template intent ti { p with sort_order := s1 } =
        SQLTemplateSystem.generate_from_template intent ti { p with sort_order := s2 }) ∧
    SQLTemplateSystem.generate_from_template "ranking" salesCatalog
        { sort_order := "ASC", limit_value := some 10 } =
      "SELECT \n    `product` as 名称,\n    `amount` as 数值\nFROM `sales`\nWHERE `amount` IS NOT NULL\nORDER BY `amount` DESC\nLIMIT 10" := by
  constructor
  · intro intent ti p s1 s2
    unfold SQLTemplateSystem.generate_from_template
    exact gft_coreF_limit_value_only 2 _ ti _ _ rfl
  · decide

/-! ### Support lemmas for C9 (totality and the degraded query) -/

lemma mem_take_of_le_takeWhile (p : Char → Bool) :
    ∀ (l : List Char) (k : Nat), k ≤ (l.takeWhile p).length →
      ∀ x ∈ l.take k, p x = true := by
  intro l
  induction l with
  | nil => intro k _ x hx; simp at hx
  | cons a rest ih =>
    intro k hk x hx
    by_cases hpa : p a = true
    · cases k with
      | zero => simp at hx
      | succ k' =>
        simp only [List.take_succ_cons, List.mem_cons] at hx
        rcases hx with rfl | hx
        · exact hpa
        · refine ih k' ?_ x hx
          simp only [List.takeWhile_cons, hpa, if_true, List.length_cons] at hk
          omega
    · simp only [List.takeWhile_cons] at hk
      rw [if_neg hpa] at hk
      simp only [List.length_nil, Nat.le_zero] at hk
      subst hk
      simp at hx

lemma mem_drop_of_not_mem_take {x : Char} {l : List Char} {k : Nat}
    (hm : x ∈ l) (hnt : x ∉ l.take k) : x ∈ l.drop k := by
  have := List.take_append_drop k l
  rw [← this] at hm
  rcases List.mem_append.mp hm with h | h
  · exact absurd h hnt
  · exact h

lemma mem_collapseBlankF {c : Char} (hc : isPySpace c = false) :
    ∀ (fuel : Nat) (l : List Char), c ∈ l → c ∈ collapseBlankF fuel l := by
  intro fuel
  induction fuel with
  | zero => intro l hl; simpa [collapseBlankF] using hl
  | succ n ih =>
    intro l hl
    cases l with
    | nil => simp at hl
    | cons a rest =>
      simp only [collapseBlankF]
      by_cases ha : a = '\n'
      · subst ha
        have hcr : c ∈ rest := by
          rcases List.mem_cons.mp hl with rfl | h
          · simp [isPySpace] at hc
          · exact h
        by_cases hrun : (rest.takeWhile isPySpace).contains '\n' = true
        · rw [if_pos rfl, if_pos hrun]
          refine List.mem_cons_of_mem _ (ih _ ?_)
          refine mem_drop_of_not_mem_take hcr (fun hmem => ?_)
          have hk : (rest.takeWhile isPySpace).length -
              ((rest.takeWhile isPySpace).reverse.takeWhile (· ≠ '\n')).length ≤
              (rest.takeWhile isPySpace).length := Nat.sub_le _ _
          have := mem_take_of_le_takeWhile isPySpace rest _ hk c hmem
          rw [this] at hc
          exact Bool.true_eq_false.mp hc
        · rw [if_pos rfl, if_neg hrun]
          exact List.mem_cons_of_mem _ (ih _ hcr)
      · rw [if_neg ha]
        rcases List.mem_cons.mp hl with rfl | h
        · exact List.mem_cons_self _ _
        · exact List.mem_cons_of_mem _ (ih _ h)

lemma mem_dropWhile_of_not {p : Char → Bool} {c : Char} (hc : p c = false) :
    ∀ {l : List Char}, c ∈ l → c ∈ l.dropWhile p := by
  intro l
  induction l with
  | nil => intro h; simp at h
  | cons a rest ih =>
    intro h
    by_cases hpa : p a = true
    · rw [List.dropWhile_cons_of_pos hpa]
      rcases List.mem_cons.mp h with rfl | h2
      · rw [hpa] at hc; exact absurd hc (by simp)
      · exact ih h2
    · rw [List.dropWhile_cons_of_neg hpa]
      exact h

lemma pyStrip_ne_nil {c : Char} {l : List Char} (hc : isPySpace c = false)
    (hm : c ∈ l) : pyStrip l ≠ [] := by
  unfold pyStrip
  intro hnil
  have h1 : c ∈ l.dropWhile isPySpace := mem_dropWhile_of_not hc hm
  have h2 : c ∈ (l.dropWhile isPySpace).reverse := List.mem_reverse.mpr h1
  have h3 : c ∈ ((l.dropWhile isPySpace).reverse.dropWhile isPySpace) :=
    mem_dropWhile_of_not hc h2
  have h4 : c ∈ ((l.dropWhile isPySpace).reverse.dropWhile isPySpace).reverse :=
    List.mem_reverse.mpr h3
  rw [hnil] at h4
  simp at h4

lemma pyFormatGo_cons_lit {args : List (String × String)} {c : Char} {rest r : List Char}
    (hc : ¬ c = braceL) (h : pyFormatGo args none (c :: rest) = some r) :
    ∃ r', pyFormatGo args none rest = some r' ∧ r = c :: r' := by
  rw [pyFormatGo, if_neg hc] at h
  rcases Option.map_eq_some'.mp h with ⟨r', hr', hrr⟩
  exact ⟨r', hr', hrr.symm⟩


lemma format_mem_S {args : List (String × String)} {r : List Char} {tmpl : String}
    (hpre : (listIsPrefix ['\n', 'S'] tmpl.data || listIsPrefix ['S'] tmpl.data) = true)
    (h : pyFormat tmpl args = some r) : 'S' ∈ r := by
  unfold pyFormat at h
  have hpre' : listIsPrefix ['\n', 'S'] tmpl.data = true ∨
      listIsPrefix ['S'] tmpl.data = true := by simpa using hpre
  rcases hd : tmpl.data with _ | ⟨a, tl⟩
  · rw [hd] at hpre'; simp [listIsPrefix] at hpre'
  · rw [hd] at hpre' h
    rcases hpre' with h2 | h1
    · rcases tl with _ | ⟨b, rest⟩
      · simp [listIsPrefix] at h2
      · simp only [listIsPrefix, Bool.and_eq_true, decide_eq_true_eq] at h2
        obtain ⟨ha, hb, -⟩ := h2
        subst ha; subst hb
        obtain ⟨r1, h1', rfl⟩ := pyFormatGo_cons_lit (by decide) h
        obtain ⟨r2, h2', rfl⟩ := pyFormatGo_cons_lit (by decide) h1'
        simp
    · have ha : 'S' = a := by
        cases tl <;> simpa [listIsPrefix] using h1
      subst ha
      obtain ⟨r1, h1', rfl⟩ := pyFormatGo_cons_lit (by decide) h
      simp

/-- A formatted-or-degraded result is never the empty string: the
degraded query literally starts with `SELECT`, and a successful format
of a template that starts with its `SELECT` keeps that `S`. -/
lemma finish_ne_nil (tmpl : String) (st : String) (args : List (String × String))
    (hpre : (listIsPrefix ['\n', 'S'] tmpl.data || listIsPrefix ['S'] tmpl.data) = true) :
    (SQLTemplateSystem.finishTemplate tmpl st args).data ≠ [] := by
  unfold SQLTemplateSystem.finishTemplate
  cases hpf : pyFormat tmpl args with
  | none =>
    have hm : 'S' ∈ ("SELECT * FROM `" ++ st ++ "` LIMIT 10").data := by
      simp only [String.data_append]
      exact List.mem_append_left _ (List.mem_append_left _ (by decide))
    simp only []
    exact List.ne_nil_of_mem hm
  | some s =>
    have hS : 'S' ∈ s := format_mem_S hpre hpf
    simpa [collapseBlank] using
      @pyStrip_ne_nil 'S' _ (by decide) (mem_collapseBlankF (by decide) s.length s hS)

lemma gft_coreF_ne_nil :
    ∀ (fuel : Nat) (intent : String),
      intent ∈ ["basic_select", "summary_stats", "group_by_stats", "time_series",
        "ranking", "related_query"] →
      ∀ (ti : Catalog) (p : SQLTemplateSystem.ExtractedParams), ti ≠ [] →
      (SQLTemplateSystem.gft_coreF fuel intent ti p).data ≠ [] := by
  intro fuel
  induction fuel with
  | zero => intro intent _ ti p _; simp [SQLTemplateSystem.gft_coreF]
  | succ n ih =>
    intro intent hmem ti p hti
    rcases ti with _ | ⟨a, rest⟩
    · exact absurd rfl hti
    fin_cases hmem
    · -- basic_select
      simp only [SQLTemplateSystem.gft_coreF]
      rw [if_neg (by simp), if_pos trivial]
      apply finish_ne_nil
      decide
    · -- summary_stats
      simp only [SQLTemplateSystem.gft_coreF]
      rw [if_neg (by simp), if_neg (by decide), if_pos trivial]
      apply finish_ne_nil
      decide
    · -- group_by_stats
      simp only [SQLTemplateSystem.gft_coreF]
      rw [if_neg (by simp), if_neg (by decide), if_neg (by decide), if_pos trivial]
      apply finish_ne_nil
      decide
    · -- time_series
      simp only [SQLTemplateSystem.gft_coreF]
      rw [if_neg (by simp), if_neg (by decide), if_neg (by decide), if_neg (by decide),
        if_pos trivial]
      split
      · apply finish_ne_nil
        decide
      · exact ih "group_by_stats" (by decide) _ p (by simp)
    · -- ranking
      simp only [SQLTemplateSystem.gft_coreF]
      rw [if_neg (by simp), if_neg (by decide), if_neg (by decide), if_neg (by decide),
        if_neg (by decide), if_pos trivial]
      split
      · apply finish_ne_nil
        decide
      · split
        · apply finish_ne_nil
          decide
        · exact ih "basic_select" (by decide) _ p (by simp)
    · -- related_query
      simp only [SQLTemplateSystem.gft_coreF]
      rw [if_neg (by simp), if_neg (by decide), if_neg (by decide), if_neg (by decide),
        if_neg (by decide), if_neg (by decide), if_pos trivial]
      split
      · apply finish_ne_nil
        decide
      · exact ih "group_by_stats" (by decide) _ p (by simp)

lemma find?_isNone_congr_fst {args1 args2 : List (String × String)}
    (h : args1.map (·.1) = args2.map (·.1)) (pred : String → Bool) :
    (args1.find? (fun p => pred p.1)).isNone = (args2.find? (fun p => pred p.1)).isNone := by
  induction args1 generalizing args2 with
  | nil =>
    have : args2 = [] := by
      cases args2 with
      | nil => rfl
      | cons b bs => simp at h
    subst this; rfl
  | cons a as ih =>
    cases args2 with
    | nil => simp at h
    | cons b bs =>
      simp only [List.map_cons, List.cons.injEq] at h
      obtain ⟨h1, h2⟩ := h
      simp only [List.find?]
      rw [← h1]
      cases hp : pred a.1 <;> simp [hp, ih h2]

/-- Whether `str.format` raises a `KeyError` depends only on the
template and the *names* bound, never on the bound values. -/
lemma pyFormatGo_none_congr {args1 args2 : List (String × String)}
    (h : args1.map (·.1) = args2.map (·.1)) :
    ∀ (l : List Char) (st : Option (List Char)),
      (pyFormatGo args1 st l = none ↔ pyFormatGo args2 st l = none) := by
  intro l
  induction l with
  | nil => intro st; cases st <;> simp [pyFormatGo]
  | cons c rest ih =>
    intro st
    cases st with
    | none =>
      simp only [pyFormatGo]
      by_cases hc : c = braceL
      · rw [if_pos hc, if_pos hc]; exact ih (some [])
      · rw [if_neg hc, if_neg hc]
        simp only [Option.map_eq_none']
        exact ih none
    | some buf =>
      simp only [pyFormatGo]
      by_cases hc : c = braceR
      · rw [if_pos hc, if_pos hc]
        have hnone := find?_isNone_congr_fst h (fun nm => nm.data = buf.reverse)
        cases h1 : args1.find? (fun p => p.1.data = buf.reverse) with
        | none =>
          have h2 : args2.find? (fun p => p.1.data = buf.reverse) = none := by
            rw [h1] at hnone
            simpa using hnone.symm
          rw [h2]
        | some p1 =>
          have h2 : ∃ p2, args2.find? (fun p => p.1.data = buf.reverse) = some p2 := by
            rw [h1] at hnone
            cases h2 : args2.find? (fun p => p.1.data = buf.reverse) with
            | none => rw [h2] at hnone; simp at hnone
            | some p2 => exact ⟨p2, rfl⟩
          obtain ⟨p2, h2⟩ := h2
          rw [h2]
          simp only [Option.map_eq_none']
          exact ih none
      · rw [if_neg hc, if_neg hc]; exact ih (some (c :: buf))

/-- Formatting the `summary_stats` template raises a `KeyError`: its
`\x7bwhere\x7d` slot is never bound by the `summary_stats` branch. -/
lemma summary_format_unbound (t li nc : String) :
    pyFormat (((SQLTemplateSystem.TEMPLATES.find?
        (fun p => p.1 = "summary_stats")).map (·.2)).getD "")
      [("table", t), ("limit", li), ("numeric_columns", nc)] = none := by
  unfold pyFormat
  rw [@pyFormatGo_none_congr
    [("table", t), ("limit", li), ("numeric_columns", nc)]
    [("table", ""), ("limit", ""), ("numeric_columns", "")] (by simp)]
  decide

/-- Formatting the `group_by_stats` template raises a `KeyError`: its
`\x7bwhere\x7d` slot is never bound by the `group_by_stats` branch. -/
lemma group_by_format_unbound (t li g ag : String) :
    pyFormat (((SQLTemplateSystem.TEMPLATES.find?
        (fun p => p.1 = "group_by_stats")).map (·.2)).getD "")
      [("table", t), ("limit", li), ("group_column", g), ("agg_columns", ag)] = none := by
  unfold pyFormat
  rw [@pyFormatGo_none_congr
    [("table", t), ("limit", li), ("group_column", g), ("agg_columns", ag)]
    [("table", ""), ("limit", ""), ("group_column", ""), ("agg_columns", "")] (by simp)]
  decide

/-- The `summary_stats` intent always degrades to the fallback query:
its template's `where` slot is never bound. -/
lemma gft_summary_fallback (ti : Catalog) (p : SQLTemplateSystem.ExtractedParams)
    (h : ti ≠ []) :
    SQLTemplateSystem.generate_from_template "summary_stats" ti p =
      "SELECT * FROM `" ++ (ti.map (·.1)).headD "" ++ "` LIMIT 10" := by
  rcases ti with _ | ⟨a, rest⟩
  · exact absurd rfl h
  unfold SQLTemplateSystem.generate_from_template
  rw [show (if SQLTemplateSystem.TEMPLATES.any (fun p => p.1 = "summary_stats")
      then "summary_stats" else "basic_select") = "summary_stats" from by decide]
  simp only [SQLTemplateSystem.gft_coreF]
  rw [if_neg (by simp), if_neg (by decide), if_pos trivial]
  unfold SQLTemplateSystem.finishTemplate
  simp only [List.cons_append, List.nil_append]
  rw [summary_format_unbound]

/-- The `group_by_stats` intent always degrades to the fallback query:
its template's `where` slot is never bound. -/
lemma gft_group_by_fallback (ti : Catalog) (p : SQLTemplateSystem.ExtractedParams)
    (h : ti ≠ []) :
    SQLTemplateSystem.generate_from_template "group_by_stats" ti p =
      "SELECT * FROM `" ++ (ti.map (·.1)).headD "" ++ "` LIMIT 10" := by
  rcases ti with _ | ⟨a, rest⟩
  · exact absurd rfl h
  unfold SQLTemplateSystem.generate_from_template
  rw [show (if SQLTemplateSystem.TEMPLATES.any (fun p => p.1 = "group_by_stats")
      then "group_by_stats" else "basic_select") = "group_by_stats" from by decide]
  simp only [SQLTemplateSystem.gft_coreF]
  rw [if_neg (by simp), if_neg (by decide), if_neg (by decide), if_pos trivial]
  unfold SQLTemplateSystem.finishTemplate
  simp only [List.cons_append, List.nil_append]
  rw [group_by_format_unbound]

/-- **C9** (confirmed).  For every non-empty catalog, every intent and
every parameter dictionary the synthesizer produces a (non-empty) query
string — no branch can fail, every partial step being handled — and
when the slot-filling step fails internally the result is exactly
`SELECT * FROM <first table> LIMIT 10`; the failure branch is real:
the `summary_stats` and `group_by_stats` templates have an unbound
`where` slot, so those intents always return the degraded query. -/
theorem C9_template_synthesizer_total (intent : String) (ti : Catalog)
    (p : SQLTemplateSystem.ExtractedParams) (h : ti ≠ []) :
    (SQLTemplateSystem.generate_from_template intent ti p).data ≠ [] ∧
    SQLTemplateSystem.generate_from_template "summary_stats" ti p =
      "SELECT * FROM `" ++ (ti.map (·.1)).headD "" ++ "` LIMIT 10" ∧
    SQLTemplateSystem.generate_from_template "group_by_stats" ti p =
      "SELECT * FROM `" ++ (ti.map (·.1)).headD "" ++ "` LIMIT 10" := by
  refine ⟨?_, gft_summary_fallback ti p h, gft_group_by_fallback ti p h⟩
  unfold SQLTemplateSystem.generate_from_template
  refine gft_coreF_ne_nil 2 _ ?_ ti p h
  by_cases hA : SQLTemplateSystem.TEMPLATES.any (fun q => q.1 = intent) = true
  · rw [if_pos hA]
    simp only [SQLTemplateSystem.TEMPLATES, List.any_cons, List.any_nil,
      Bool.or_eq_true, decide_eq_true_eq] at hA
    rcases hA with ⟨⟩|⟨⟩|⟨⟩|⟨⟩|⟨⟩|⟨⟩|hA
    all_goals first
      | decide
      | (rename_i heq; rw [← heq]; decide)
      | simp at hA
  · rw [if_neg hA]; decide

/-- **C9** witness at a concrete instantiation. -/
theorem C9_witness :
    salesCatalog ≠ [] ∧
    ((SQLTemplateSystem.generate_from_template "time_series" salesCatalog
        ({} : SQLTemplateSystem.ExtractedParams)).data ≠ [] ∧
     SQLTemplateSystem.generate_from_template "summary_stats" salesCatalog
        ({} : SQLTemplateSystem.ExtractedParams) =
      "SELECT * FROM `" ++ (salesCatalog.map (·.1)).headD "" ++ "` LIMIT 10" ∧
     SQLTemplateSystem.generate_from_template "group_by_stats" salesCatalog
        ({} : SQLTemplateSystem.ExtractedParams) =
      "SELECT * FROM `" ++ (salesCatalog.map (·.1)).headD "" ++ "` LIMIT 10") :=
  ⟨by decide, C9_template_synthesizer_total "time_series" salesCatalog
    ({} : SQLTemplateSystem.ExtractedParams) (by decide)⟩

/-- When the Generation Service outcome maps to a text that is already
stripped, fence-free, contains no `SELECT` statement and no extractable
table, the feedback reviser returns the commented *safe fallback* for
the catalog — not the prior query. -/
lemma improve_llm_unusable_text (baseUrl : String) (oracle : GenResult)
    (original_sql feedback : String) (schemas : Catalog)
    (h1 : pyStrip (LLMAnalyst.call_ollama baseUrl oracle).data =
      (LLMAnalyst.call_ollama baseUrl oracle).data)
    (h2 : LLMAnalyst.removeCodeFences (LLMAnalyst.call_ollama baseUrl oracle).data =
      (LLMAnalyst.call_ollama baseUrl oracle).data)
    (h3 : LLMAnalyst.extractSelectStmt (LLMAnalyst.call_ollama baseUrl oracle).data = none)
    (h4 : SQLValidator.extract_tables_from_sql (LLMAnalyst.call_ollama baseUrl oracle) = []) :
    LLMAnalyst.improve_sql_with_llm_feedback baseUrl oracle original_sql feedback schemas =
      "-- 根据用户反馈改进的SQL\n-- 反馈: " ++ (⟨feedback.data.take 100⟩ : String) ++ "\n" ++
        LLMAnalyst.generate_safe_fallback_sql schemas := by
  unfold LLMAnalyst.improve_sql_with_llm_feedback
  simp only [h1, h2, h3]
  unfold LLMAnalyst.validate_and_fix_sql
  rw [show ((⟨(LLMAnalyst.call_ollama baseUrl oracle).data⟩ : String)) =
    LLMAnalyst.call_ollama baseUrl oracle from rfl]
  rw [h4, if_pos rfl]

/-- **C3** counterexample to the claim as stated: on a Generation
Service timeout the feedback loop does *not* return the prior query —
the timeout error string flows through `_validate_and_fix_sql`, which
finds no table in it and replaces it with the generic safe-fallback
query over the first catalog table. -/
theorem C3_counterexample :
    LLMAnalyst.improve_sql_with_feedback "http://localhost:11434" GenResult.timeout
        "SELECT `product` FROM `sales` LIMIT 5" "请加上平均值" salesCatalog ≠
      "SELECT `product` FROM `sales` LIMIT 5" ∧
    LLMAnalyst.improve_sql_with_feedback "http://localhost:11434" GenResult.timeout
        "SELECT `product` FROM `sales` LIMIT 5" "请加上平均值" salesCatalog =
      "-- 根据用户反馈改进的SQL\n-- 反馈: 请加上平均值\nSELECT `amount`, `product` FROM `sales` LIMIT 50" := by
  refine ⟨by decide, by decide⟩

/-- **C3** (amended).  On Generation Service failure (timeout, or
connection error with the local Ollama endpoint) the feedback loop
raises no exception, but it does not return the prior query: it returns
the safe-fallback query for the first catalog table, prefixed with the
feedback comment.  (For non-200/malformed outcomes the same holds
whenever the embedded response text contains no `SELECT`/`FROM`.) -/
theorem C3_feedback_failure_returns_fallback (baseUrl original_sql feedback : String)
    (schemas : Catalog) (oracle : GenResult)
    (horacle : oracle = GenResult.timeout ∨
      (oracle = GenResult.connError ∧ baseUrl = "http://localhost:11434"))
    (hsql : ¬ strStrip original_sql = "")
    (hfb : ¬ strStrip feedback = "")
    (hunk : isSubstr "Unknown column".data feedback.data = false) :
    LLMAnalyst.improve_sql_with_feedback baseUrl oracle original_sql feedback schemas =
      "-- 根据用户反馈改进的SQL\n-- 反馈: " ++ (⟨feedback.data.take 100⟩ : String) ++ "\n" ++
        LLMAnalyst.generate_safe_fallback_sql schemas := by
  unfold LLMAnalyst.improve_sql_with_feedback
  rw [if_neg hsql, if_neg hfb, if_neg (by simp [hunk])]
  rcases horacle with rfl | ⟨rfl, rfl⟩
  · have e : LLMAnalyst.call_ollama baseUrl GenResult.timeout =
        "请求超时，请检查Ollama服务状态" := rfl
    exact improve_llm_unusable_text baseUrl GenResult.timeout original_sql feedback schemas
      (by rw [e]; decide) (by rw [e]; decide) (by rw [e]; decide) (by rw [e]; decide)
  · exact improve_llm_unusable_text "http://localhost:11434" GenResult.connError original_sql
      feedback schemas (by decide) (by decide) (by decide) (by decide)

/-- **C3** witness at a concrete instantiation. -/
theorem C3_witness :
    (GenResult.timeout = GenResult.timeout ∨
      (GenResult.timeout = GenResult.connError ∧
        "http://localhost:11434" = "http://localhost:11434")) ∧
    ¬ strStrip "SELECT 1 FROM t" = "" ∧
    ¬ strStrip "结果不对" = "" ∧
    isSubstr "Unknown column".data "结果不对".data = false ∧
    LLMAnalyst.improve_sql_with_feedback "http://localhost:11434" GenResult.timeout
        "SELECT 1 FROM t" "结果不对" salesCatalog =
      "-- 根据用户反馈改进的SQL\n-- 反馈: " ++ (⟨"结果不对".data.take 100⟩ : String) ++ "\n" ++
        LLMAnalyst.generate_safe_fallback_sql salesCatalog :=
  ⟨Or.inl rfl, by decide, by decide, by decide,
    C3_feedback_failure_returns_fallback "http://localhost:11434" "SELECT 1 FROM t" "结果不对"
      salesCatalog GenResult.timeout (Or.inl rfl) (by decide) (by decide) (by decide)⟩

/-! ### Support lemmas for C1 (the template path never passes the validator) -/

lemma digitChar_isDigit {m : Nat} (h : m < 10) : (Nat.digitChar m).isDigit = true := by
  interval_cases m <;> decide

lemma toDigitsCore_succ (b fuel n : Nat) (ds : List Char) :
    Nat.toDigitsCore b (fuel + 1) n ds =
      if n / b = 0 then Nat.digitChar (n % b) :: ds
      else Nat.toDigitsCore b fuel (n / b) (Nat.digitChar (n % b) :: ds) := by
  simp [Nat.toDigitsCore]

lemma toDigitsCore_mem {c : Char} :
    ∀ (fuel n : Nat) (acc : List Char), c ∈ Nat.toDigitsCore 10 fuel n acc →
      c ∈ acc ∨ c.isDigit = true := by
  intro fuel
  induction fuel with
  | zero => intro n acc h; exact Or.inl (by simpa [Nat.toDigitsCore] using h)
  | succ f ih =>
    intro n acc h
    rw [toDigitsCore_succ] at h
    by_cases h0 : n / 10 = 0
    · rw [if_pos h0] at h
      rcases List.mem_cons.mp h with rfl | h2
      · exact Or.inr (digitChar_isDigit (Nat.mod_lt _ (by norm_num)))
      · exact Or.inl h2
    · rw [if_neg h0] at h
      rcases ih (n / 10) _ h with h2 | h2
      · rcases List.mem_cons.mp h2 with rfl | h3
        · exact Or.inr (digitChar_isDigit (Nat.mod_lt _ (by norm_num)))
        · exact Or.inl h3
      · exact Or.inr h2

/-- Every character of `Nat.repr n` is a decimal digit. -/
lemma repr_data_digits {n : Nat} {c : Char} (h : c ∈ (Nat.repr n).data) : c.isDigit = true := by
  have h2 : c ∈ Nat.toDigitsCore 10 (n + 1) n [] := h
  rcases toDigitsCore_mem _ _ _ h2 with h3 | h3
  · simp at h3
  · exact h3

lemma toDigitsCore_ne_nil :
    ∀ (fuel n : Nat) (acc : List Char), acc ≠ [] → Nat.toDigitsCore 10 fuel n acc ≠ [] := by
  intro fuel
  induction fuel with
  | zero => intro n acc h; simpa [Nat.toDigitsCore] using h
  | succ f ih =>
    intro n acc h
    rw [toDigitsCore_succ]
    by_cases h0 : n / 10 = 0
    · rw [if_pos h0]; exact List.cons_ne_nil _ _
    · rw [if_neg h0]; exact ih _ _ (List.cons_ne_nil _ _)

/-- `Nat.repr` never yields the empty string. -/
lemma repr_data_ne_nil (n : Nat) : (Nat.repr n).data ≠ [] := by
  show Nat.toDigitsCore 10 (n + 1) n [] ≠ []
  rw [toDigitsCore_succ]
  by_cases h0 : n / 10 = 0
  · rw [if_pos h0]; exact List.cons_ne_nil _ _
  · rw [if_neg h0]; exact toDigitsCore_ne_nil _ _ _ (List.cons_ne_nil _ _)

/-- A digit character differs from any fixed non-digit character. -/
lemma digit_ne {c d : Char} (h : c.isDigit = true) (hd : d.isDigit = false) : c ≠ d := by
  intro he
  rw [he, hd] at h
  exact Bool.false_ne_true h

lemma digit_not_space {c : Char} (h : c.isDigit = true) : isPySpace c = false := by
  by_contra hs
  rw [Bool.not_eq_false] at hs
  rcases (by simpa [isPySpace, or_assoc] using hs :
      c = ' ' ∨ c = '\t' ∨ c = '\n' ∨ c = '\r' ∨ c = Char.ofNat 11 ∨ c = Char.ofNat 12) with
    rfl | rfl | rfl | rfl | rfl | rfl <;> exact absurd h (by decide)

lemma take_two_append {a : List Char} (b : List Char) (h : a.take 2 = ['-', '-']) :
    (a ++ b).take 2 = ['-', '-'] := by
  have hl := congrArg List.length h
  simp only [List.length_take, List.length_cons, List.length_nil] at hl
  have h2 : 2 ≤ a.length := by omega
  rw [List.take_append_of_le_length h2, h]

lemma chEqCI_btick_dash : chEqCI btick '-' = false := by decide

lemma replaceAllCIF_head_dash (col repl : List Char) :
    ∀ (fuel : Nat) (l : List Char), l.head? = some '-' →
      (replaceAllCIF (btick :: col) repl fuel l).head? = some '-' := by
  intro fuel l hl
  cases fuel with
  | zero => simpa [replaceAllCIF] using hl
  | succ f =>
    cases l with
    | nil => simp at hl
    | cons c rest =>
      have hc : c = '-' := by simpa using hl
      subst hc
      have hpre : listIsPrefixCI (btick :: col) ('-' :: rest) = false := by
        simp [listIsPrefixCI, chEqCI_btick_dash]
      simp only [replaceAllCIF]
      rw [if_neg (fun hand => Bool.false_ne_true (hpre ▸ hand.2))]
      rfl

lemma replaceAllCIF_take2_dash (col repl : List Char) (fuel : Nat) (l : List Char)
    (hl : l.take 2 = ['-', '-']) :
    (replaceAllCIF (btick :: col) repl fuel l).take 2 = ['-', '-'] := by
  obtain ⟨rest, rfl⟩ : ∃ rest, l = '-' :: '-' :: rest := by
    cases l with
    | nil => simp at hl
    | cons a l2 =>
      cases l2 with
      | nil => simp at hl
      | cons b rest =>
        have hab : a = '-' ∧ b = '-' := by simpa using hl
        exact ⟨rest, by rw [hab.1, hab.2]⟩
  cases fuel with
  | zero => simp only [replaceAllCIF]; exact hl
  | succ f =>
    have hpre : listIsPrefixCI (btick :: col) ('-' :: '-' :: rest) = false := by
      simp [listIsPrefixCI, chEqCI_btick_dash]
    simp only [replaceAllCIF]
    rw [if_neg (fun hand => Bool.false_ne_true (hpre ▸ hand.2))]
    have hh := replaceAllCIF_head_dash col repl f ('-' :: rest) (by simp)
    cases hr : replaceAllCIF (btick :: col) repl f ('-' :: rest) with
    | nil => rw [hr] at hh; simp at hh
    | cons x t =>
      rw [hr] at hh
      have hx : x = '-' := by simpa using hh
      subst hx
      simp

lemma isPyWord_dash : isPyWord '-' = false := by decide

lemma replaceWordCIF_head_dash (pat repl : List Char) :
    ∀ (fuel : Nat) (l : List Char), l.head? = some '-' →
      (replaceWordCIF pat repl fuel false l).head? = some '-' := by
  intro fuel l hl
  cases fuel with
  | zero => simpa [replaceWordCIF] using hl
  | succ f =>
    cases l with
    | nil => simp at hl
    | cons c rest =>
      have hc : c = '-' := by simpa using hl
      subst hc
      simp only [replaceWordCIF]
      split
      · split
        · rename_i hb
          exact absurd isPyWord_dash.symm hb.1
        · rfl
      · rfl

lemma replaceWordCIF_take2_dash (pat repl : List Char) (fuel : Nat) (l : List Char)
    (hl : l.take 2 = ['-', '-']) :
    (replaceWordCIF pat repl fuel false l).take 2 = ['-', '-'] := by
  obtain ⟨rest, rfl⟩ : ∃ rest, l = '-' :: '-' :: rest := by
    cases l with
    | nil => simp at hl
    | cons a l2 =>
      cases l2 with
      | nil => simp at hl
      | cons b rest =>
        have hab : a = '-' ∧ b = '-' := by simpa using hl
        exact ⟨rest, by rw [hab.1, hab.2]⟩
  cases fuel with
  | zero => simp only [replaceWordCIF]; exact hl
  | succ f =>
    have hh := replaceWordCIF_head_dash pat repl f ('-' :: rest) (by simp)
    have hgoal : ∀ r : List Char, r.head? = some '-' → ('-' :: r).take 2 = ['-', '-'] := by
      intro r hr
      cases r with
      | nil => simp at hr
      | cons x t =>
        have hx : x = '-' := by simpa using hr
        subst hx
        simp
    simp only [replaceWordCIF]
    split
    · split
      · rename_i hb
        exact absurd isPyWord_dash.symm hb.1
      · rw [show isPyWord '-' = false from isPyWord_dash]
        exact hgoal _ hh
    · rw [show isPyWord '-' = false from isPyWord_dash]
      exact hgoal _ hh

lemma prefixCI_ORDER_dash (rest : List Char) :
    listIsPrefixCI "ORDER BY".data ('-' :: rest) = false := by
  show listIsPrefixCI ('O' :: "RDER BY".data) ('-' :: rest) = false
  simp [listIsPrefixCI, show chEqCI 'O' '-' = false from by decide]

lemma orderByLimitSubF_head_dash :
    ∀ (fuel : Nat) (l : List Char), l.head? = some '-' →
      (LLMAnalyst.orderByLimitSubF fuel l).head? = some '-' := by
  intro fuel l hl
  cases fuel with
  | zero => simpa [LLMAnalyst.orderByLimitSubF] using hl
  | succ f =>
    cases l with
    | nil => simp at hl
    | cons c rest =>
      have hc : c = '-' := by simpa using hl
      subst hc
      simp only [LLMAnalyst.orderByLimitSubF]
      rw [if_neg (fun hand => Bool.false_ne_true ((prefixCI_ORDER_dash rest) ▸ hand))]
      rfl

lemma orderByLimitSubF_take2_dash (fuel : Nat) (l : List Char)
    (hl : l.take 2 = ['-', '-']) :
    (LLMAnalyst.orderByLimitSubF fuel l).take 2 = ['-', '-'] := by
  obtain ⟨rest, rfl⟩ : ∃ rest, l = '-' :: '-' :: rest := by
    cases l with
    | nil => simp at hl
    | cons a l2 =>
      cases l2 with
      | nil => simp at hl
      | cons b rest =>
        have hab : a = '-' ∧ b = '-' := by simpa using hl
        exact ⟨rest, by rw [hab.1, hab.2]⟩
  cases fuel with
  | zero => simp only [LLMAnalyst.orderByLimitSubF]; exact hl
  | succ f =>
    simp only [LLMAnalyst.orderByLimitSubF]
    rw [if_neg (fun hand => Bool.false_ne_true ((prefixCI_ORDER_dash ('-' :: rest)) ▸ hand))]
    have hh := orderByLimitSubF_head_dash f ('-' :: rest) (by simp)
    cases hr : LLMAnalyst.orderByLimitSubF f ('-' :: rest) with
    | nil => rw [hr] at hh; simp at hh
    | cons x t =>
      rw [hr] at hh
      have hx : x = '-' := by simpa using hh
      subst hx
      simp

lemma foldl_preserves {α β : Type} (P : α → Prop) (f : α → β → α)
    (hf : ∀ a b, P a → P (f a b)) :
    ∀ (l : List β) (a : α), P a → P (l.foldl f a) := by
  intro l
  induction l with
  | nil => intro a h; exact h
  | cons x xs ih => intro a h; rw [List.foldl_cons]; exact ih _ (hf a x h)

/-- The column-repair pass keeps a leading two-character prefix `--`:
no replacement pattern can match at a `-` character. -/
lemma fix_column_names_take2 (sql : String) (avail : List String)
    (h : sql.data.take 2 = ['-', '-']) :
    (SQLValidator.fix_column_names sql avail).1.data.take 2 = ['-', '-'] := by
  unfold SQLValidator.fix_column_names
  refine foldl_preserves
    (fun acc : String × List (String × String) => acc.1.data.take 2 = ['-', '-'])
    _ ?_ _ (sql, []) h
  intro acc column hacc
  by_cases hc : avail.contains column = true
  · rw [if_pos hc]; exact hacc
  · rw [if_neg hc]
    cases hf : SQLValidator.find_similar_column column avail with
    | none => exact hacc
    | some similar =>
      show (replaceWordCI column.data (btick :: similar.data ++ [btick]) false
        (replaceAllCI (btick :: column.data ++ [btick]) (btick :: similar.data ++ [btick])
          acc.1.data)).take 2 = ['-', '-']
      exact replaceWordCIF_take2_dash _ _ _ _
        (replaceAllCIF_take2_dash _ _ _ _ hacc)

lemma fix_fold_take2 (schemas : Catalog) (tables : List String) (sql : String)
    (h : sql.data.take 2 = ['-', '-']) :
    (tables.foldl (fun acc t =>
      match schemas.find? (fun p => p.1 = t) with
      | some p =>
        let avail := p.2.map (·.name)
        let fx := SQLValidator.fix_column_names acc avail
        if fx.2 ≠ [] then fx.1 else acc
      | none => acc) sql).data.take 2 = ['-', '-'] := by
  refine foldl_preserves (fun acc : String => acc.data.take 2 = ['-', '-']) _ ?_ tables sql h
  intro acc t hacc
  cases hfind : schemas.find? (fun p => p.1 = t) with
  | none => exact hacc
  | some p =>
    show (if (SQLValidator.fix_column_names acc (p.2.map (·.name))).2 ≠ []
      then (SQLValidator.fix_column_names acc (p.2.map (·.name))).1 else acc).data.take 2 =
        ['-', '-']
    split
    · exact fix_column_names_take2 acc _ hacc
    · exact hacc

/-- `_validate_and_fix_sql` keeps a leading `--` comment marker whenever
it extracts at least one table from the query: the repair loop rewrites
only column mentions and the LIMIT patch only inserts text after an
`ORDER BY` or at the end. -/
lemma validate_and_fix_take2 (sql : String) (schemas : Catalog)
    (h : sql.data.take 2 = ['-', '-'])
    (ht : SQLValidator.extract_tables_from_sql sql ≠ []) :
    (LLMAnalyst.validate_and_fix_sql sql schemas).data.take 2 = ['-', '-'] := by
  unfold LLMAnalyst.validate_and_fix_sql
  rw [if_neg ht]
  have h2 := fix_fold_take2 schemas (SQLValidator.extract_tables_from_sql sql) sql h
  simp only []
  split
  · split
    · exact orderByLimitSubF_take2_dash _ _ h2
    · rw [String.data_append]
      exact take_two_append _ h2
  · exact h2

lemma dropWhile_singleton_end {p : Char → Bool} {c : Char} (hc : p c = false) :
    ∀ (a : List Char), ∃ x, (a ++ [c]).dropWhile p = x ++ [c] := by
  intro a
  induction a with
  | nil =>
    refine ⟨[], ?_⟩
    simp [List.dropWhile_cons, hc]
  | cons d ds ih =>
    by_cases hd : p d = true
    · obtain ⟨x, hx⟩ := ih
      exact ⟨x, by rw [List.cons_append, List.dropWhile_cons_of_pos hd, hx]⟩
    · exact ⟨d :: ds, by rw [List.cons_append, List.dropWhile_cons_of_neg hd]⟩

lemma pyStrip_head {c : Char} (l : List Char) (hc : isPySpace c = false) :
    ∃ t, pyStrip (c :: l) = c :: t := by
  unfold pyStrip
  rw [List.dropWhile_cons_of_neg (by simp [hc]), List.reverse_cons]
  obtain ⟨x, hx⟩ := dropWhile_singleton_end hc l.reverse
  rw [hx, List.reverse_append]
  exact ⟨x.reverse, by simp⟩

/-- Any SQL text starting with the two characters `--` (a SQL comment
marker) is rejected by `validate_sql_structure`: the stripped upper-cased
text starts with `-`, so the leading-`SELECT` rule fires and the warning
list is non-empty. -/
lemma validator_false_of_take2_dash (sql : String) (h : sql.data.take 2 = ['-', '-']) :
    (SQLValidator.validate_sql_structure sql).1 = false := by
  obtain ⟨rest, hdata⟩ : ∃ rest, sql.data = '-' :: '-' :: rest := by
    cases hd : sql.data with
    | nil => rw [hd] at h; simp at h
    | cons a l2 =>
      cases l2 with
      | nil => rw [hd] at h; simp at h
      | cons b r =>
        rw [hd] at h
        have hab : a = '-' ∧ b = '-' := by simpa using h
        exact ⟨r, by rw [hab.1, hab.2]⟩
  have hup : pyUpper sql.data = '-' :: '-' :: pyUpper rest := by
    rw [hdata]; rfl
  obtain ⟨t, hstrip⟩ := @pyStrip_head '-' ('-' :: pyUpper rest) (by decide)
  have hw1 : listIsPrefix "SELECT".data (pyStrip (pyUpper sql.data)) = false := by
    rw [hup, hstrip]
    show listIsPrefix ('S' :: "ELECT".data) ('-' :: t) = false
    simp [listIsPrefix]
  unfold SQLValidator.validate_sql_structure
  simp only [foldl_warn_filter]
  rw [hw1]
  by_cases b2 : isSubstr "FROM".data (pyUpper sql.data) = true <;>
  by_cases b4 : sql.data.count '(' = sql.data.count ')' <;>
  by_cases b5 : isSubstr "LIMIT".data (pyUpper sql.data) = true <;>
  by_cases b6 : isSubstr "SELECT".data (pyUpper sql.data) = true <;>
    simp_all [List.isEmpty_iff]

/-- Combination used by C1: a `--`-prefixed query with an extractable
table stays `--`-prefixed through `_validate_and_fix_sql` and is then
rejected by the validator. -/
lemma vafs_invalid (sql : String) (schemas : Catalog)
    (h2 : sql.data.take 2 = ['-', '-'])
    (ht : SQLValidator.extract_tables_from_sql sql ≠ []) :
    (SQLValidator.validate_sql_structure
      (LLMAnalyst.validate_and_fix_sql sql schemas)).1 = false :=
  validator_false_of_take2_dash _ (validate_and_fix_take2 sql schemas h2 ht)

lemma takeWhile_append_all {p : Char → Bool} :
    ∀ (a b : List Char), (∀ c ∈ a, p c = true) →
      (a ++ b).takeWhile p = a ++ b.takeWhile p := by
  intro a b
  induction a with
  | nil => intro _; simp
  | cons d ds ih =>
    intro ha
    rw [List.cons_append, List.takeWhile_cons_of_pos (ha d (List.mem_cons_self d ds)),
      ih (fun c hc => ha c (List.mem_cons_of_mem d hc)), List.cons_append]

lemma takeWhile_append_stop {p : Char → Bool} :
    ∀ (a b : List Char), a.any (fun c => !p c) = true →
      (a ++ b).takeWhile p = a.takeWhile p := by
  intro a b
  induction a with
  | nil => intro h; simp at h
  | cons d ds ih =>
    intro h
    by_cases hd : p d = true
    · have h2 : ds.any (fun c => !p c) = true := by
        rcases List.any_eq_true.mp h with ⟨x, hx, hpx⟩
        rcases List.mem_cons.mp hx with rfl | hx2
        · rw [hd] at hpx; simp at hpx
        · exact List.any_eq_true.mpr ⟨x, hx2, hpx⟩
      rw [List.cons_append, List.takeWhile_cons_of_pos hd, List.takeWhile_cons_of_pos hd,
        ih h2]
    · rw [List.cons_append, List.takeWhile_cons_of_neg hd, List.takeWhile_cons_of_neg hd]

/-- No blank-line collapse step applies anywhere in `l`: after every
newline, the following whitespace run contains no further newline. -/
def noBlankPair : List Char → Bool
  | [] => true
  | c :: rest =>
    (if c = '\n' then !(rest.takeWhile isPySpace).contains '\n' else true) && noBlankPair rest

lemma collapseBlankF_of_noBlankPair :
    ∀ (fuel : Nat) (l : List Char), noBlankPair l = true → collapseBlankF fuel l = l := by
  intro fuel
  induction fuel with
  | zero => intro l _; rfl
  | succ f ih =>
    intro l h
    cases l with
    | nil => rfl
    | cons c rest =>
      rw [noBlankPair, Bool.and_eq_true] at h
      obtain ⟨h1, h2⟩ := h
      simp only [collapseBlankF]
      by_cases hc : c = '\n'
      · subst hc
        rw [if_pos rfl] at h1
        have hrun : (rest.takeWhile isPySpace).contains '\n' = false := by simpa using h1
        rw [if_pos rfl]
        rw [if_neg (fun hcon => Bool.false_ne_true (hrun ▸ hcon)), ih rest h2]
      · rw [if_neg hc, ih rest h2]

lemma noBlankPair_digits_append :
    ∀ (d t : List Char), (∀ c ∈ d, c.isDigit = true) → noBlankPair t = true →
      noBlankPair (d ++ t) = true := by
  intro d t
  induction d with
  | nil => intro _ ht; simpa using ht
  | cons x xs ih =>
    intro hd ht
    rw [List.cons_append, noBlankPair, Bool.and_eq_true]
    refine ⟨?_, ih (fun c hc => hd c (List.mem_cons_of_mem x hc)) ht⟩
    rw [if_neg (digit_ne (hd x (List.mem_cons_self x xs)) (by decide))]

/-- Every newline inside the list has its whitespace run closed off
before the end (a non-whitespace character follows) and free of further
newlines, so lookaheads never cross an append boundary on the right. -/
def nlRunsClosed : List Char → Bool
  | [] => true
  | c :: rest =>
    (if c = '\n' then
       !(rest.takeWhile isPySpace).contains '\n' && rest.any (fun x => !isPySpace x)
     else true) && nlRunsClosed rest

lemma noBlankPair_append_of_closed :
    ∀ (a t : List Char), nlRunsClosed a = true → noBlankPair t = true →
      noBlankPair (a ++ t) = true := by
  intro a t
  induction a with
  | nil => intro _ ht; simpa using ht
  | cons c rest ih =>
    intro ha ht
    rw [nlRunsClosed, Bool.and_eq_true] at ha
    obtain ⟨h1, h2⟩ := ha
    rw [List.cons_append, noBlankPair, Bool.and_eq_true]
    refine ⟨?_, ih h2 ht⟩
    by_cases hc : c = '\n'
    · rw [if_pos hc] at h1
      rw [Bool.and_eq_true] at h1
      rw [if_pos hc, takeWhile_append_stop rest t h1.2]
      exact h1.1
    · rw [if_neg hc]

lemma pyStrip_shape (A B D W : List Char)
    (hAB : A.dropWhile isPySpace = B) (hB : B ≠ [])
    (hW : ∀ c ∈ W, isPySpace c = true)
    (hD : D ≠ []) (hdig : ∀ x ∈ D, x.isDigit = true) :
    pyStrip (A ++ (D ++ W)) = B ++ D := by
  unfold pyStrip
  have h1 : (A ++ (D ++ W)).dropWhile isPySpace = B ++ (D ++ W) := by
    rw [List.dropWhile_append, hAB]
    rw [if_neg (by simpa [List.isEmpty_iff] using hB)]
  rw [h1]
  obtain ⟨d, D', hrev⟩ : ∃ d D', D.reverse = d :: D' := by
    cases hD' : D.reverse with
    | nil => exact absurd (by simpa using congrArg List.reverse hD') hD
    | cons d D' => exact ⟨d, D', rfl⟩
  have hdns : isPySpace d = false :=
    digit_not_space (hdig d (List.mem_reverse.mp (by rw [hrev]; exact List.mem_cons_self d D')))
  have h2 : (B ++ (D ++ W)).reverse.dropWhile isPySpace = D.reverse ++ B.reverse := by
    rw [List.reverse_append, List.reverse_append, List.append_assoc, List.dropWhile_append]
    rw [show W.reverse.dropWhile isPySpace = [] from List.dropWhile_eq_nil_iff.mpr
      (fun c hc => hW c (List.mem_reverse.mp hc))]
    rw [show ([] : List Char).isEmpty = true from rfl, if_pos rfl]
    rw [hrev, List.cons_append,
      List.dropWhile_cons_of_neg (fun hcon => Bool.false_ne_true (hdns ▸ hcon)),
      ← List.cons_append, ← hrev]
  rw [h2, List.reverse_append, List.reverse_reverse, List.reverse_reverse]

lemma classify_fold_mem (ql : List Char) :
    ∀ (ps : List (String × List SQLTemplateSystem.TriggerPattern)) (acc : String × ℚ),
      (ps.foldl (fun acc p =>
        if p.2.any (SQLTemplateSystem.matchesPattern ql) ∧ p.1 ≠ acc.1
        then (p.1, (4 : ℚ)/5) else acc) acc).1 = acc.1 ∨
      (ps.foldl (fun acc p =>
        if p.2.any (SQLTemplateSystem.matchesPattern ql) ∧ p.1 ≠ acc.1
        then (p.1, (4 : ℚ)/5) else acc) acc).1 ∈ ps.map (·.1) := by
  intro ps
  induction ps with
  | nil => intro acc; exact Or.inl rfl
  | cons p ps ih =>
    intro acc
    rw [List.foldl_cons]
    rcases ih (if p.2.any (SQLTemplateSystem.matchesPattern ql) ∧ p.1 ≠ acc.1
      then (p.1, (4 : ℚ)/5) else acc) with h | h
    · rw [h]
      by_cases hc : p.2.any (SQLTemplateSystem.matchesPattern ql) = true ∧ p.1 ≠ acc.1
      · rw [if_pos hc]
        exact Or.inr (by simp)
      · rw [if_neg hc]
        exact Or.inl rfl
    · exact Or.inr (by rw [List.map_cons]; exact List.mem_cons_of_mem _ h)

/-- The classifier can only return one of the six fixed intents. -/
lemma classify_intent_mem (q : String) :
    (SQLTemplateSystem.classify_query_intent q).1 ∈
      ["summary_stats", "group_by_stats", "time_series", "ranking", "related_query",
       "basic_select"] := by
  unfold SQLTemplateSystem.classify_query_intent
  simp only []
  rcases classify_fold_mem (pyLower q.data) SQLTemplateSystem.keyword_patterns
      ("basic_select", 0) with h | h
  · rw [h]; decide
  · simpa [SQLTemplateSystem.keyword_patterns] using h

lemma pyStrip_append_digits (A B D : List Char)
    (hAB : A.dropWhile isPySpace = B) (hB : B ≠ [])
    (hD : D ≠ []) (hdig : ∀ x ∈ D, x.isDigit = true) :
    pyStrip (A ++ (D ++ [])) = B ++ D :=
  pyStrip_shape A B D [] hAB hB (by simp) hD hdig

/-- Evaluation of the `basic_select` branch over the sales catalog with
a symbolic extracted limit. -/
lemma gft_basic_eval (p : SQLTemplateSystem.ExtractedParams) :
    SQLTemplateSystem.gft_coreF 2 "basic_select" salesCatalog p =
      (⟨("SELECT `product` as `product`, `amount` as `金额` FROM `sales`   ORDER BY 1 LIMIT " : String).data
        ++ (Nat.repr (p.limit_value.getD 100)).data⟩ : String) := by
  have hstep : SQLTemplateSystem.gft_coreF 2 "basic_select" salesCatalog p =
      SQLTemplateSystem.finishTemplate
        "SELECT \x7bcolumns\x7d FROM `\x7btable\x7d` \x7bwhere\x7d \x7bgroup_by\x7d \x7border_by\x7d \x7blimit\x7d"
        "sales"
        [("table", "sales"),
         ("limit", "LIMIT " ++ Nat.repr (p.limit_value.getD 100)),
         ("columns", "`product` as `product`, `amount` as `金额`"),
         ("where", ""), ("group_by", ""), ("order_by", "ORDER BY 1")] := rfl
  have hpf : pyFormat
      "SELECT \x7bcolumns\x7d FROM `\x7btable\x7d` \x7bwhere\x7d \x7bgroup_by\x7d \x7border_by\x7d \x7blimit\x7d"
      [("table", "sales"),
       ("limit", "LIMIT " ++ Nat.repr (p.limit_value.getD 100)),
       ("columns", "`product` as `product`, `amount` as `金额`"),
       ("where", ""), ("group_by", ""), ("order_by", "ORDER BY 1")] =
      some (("SELECT `product` as `product`, `amount` as `金额` FROM `sales`   ORDER BY 1 LIMIT " : String).data
        ++ ((Nat.repr (p.limit_value.getD 100)).data ++ [])) := rfl
  rw [hstep]
  unfold SQLTemplateSystem.finishTemplate
  rw [hpf]
  have hDne : (Nat.repr (p.limit_value.getD 100)).data ≠ [] := repr_data_ne_nil _
  have hDdig : ∀ x ∈ (Nat.repr (p.limit_value.getD 100)).data, x.isDigit = true :=
    fun x hx => repr_data_digits hx
  show (⟨pyStrip (collapseBlank _)⟩ : String) = _
  unfold collapseBlank
  rw [collapseBlankF_of_noBlankPair _ _
    (noBlankPair_append_of_closed _ _ (by decide)
      (noBlankPair_digits_append _ [] hDdig rfl))]
  rw [pyStrip_append_digits _
    ("SELECT `product` as `product`, `amount` as `金额` FROM `sales`   ORDER BY 1 LIMIT " : String).data
    _ (by decide) (by decide) hDne hDdig]

/-- Evaluation of the `ranking` branch over the sales catalog with a
symbolic extracted limit.  The trailing template indentation is stripped
and the single newlines survive the blank-line collapse. -/
lemma gft_ranking_eval (p : SQLTemplateSystem.ExtractedParams) :
    SQLTemplateSystem.gft_coreF 2 "ranking" salesCatalog p =
      (⟨("SELECT \n    `product` as 名称,\n    `amount` as 数值\nFROM `sales`\nWHERE `amount` IS NOT NULL\nORDER BY `amount` DESC\nLIMIT " : String).data
        ++ (Nat.repr (p.limit_value.getD 100)).data⟩ : String) := by
  have hstep : SQLTemplateSystem.gft_coreF 2 "ranking" salesCatalog p =
      SQLTemplateSystem.finishTemplate
        "\nSELECT \n    `\x7branking_column\x7d` as 名称,\n    `\x7bvalue_column\x7d` as 数值\nFROM `\x7btable\x7d`\nWHERE `\x7bvalue_column\x7d` IS NOT NULL\nORDER BY `\x7bvalue_column\x7d` DESC\n\x7blimit\x7d\n            "
        "sales"
        [("table", "sales"),
         ("limit", "LIMIT " ++ Nat.repr (p.limit_value.getD 100)),
         ("ranking_column", "product"), ("value_column", "amount")] := rfl
  have hpf : pyFormat
      "\nSELECT \n    `\x7branking_column\x7d` as 名称,\n    `\x7bvalue_column\x7d` as 数值\nFROM `\x7btable\x7d`\nWHERE `\x7bvalue_column\x7d` IS NOT NULL\nORDER BY `\x7bvalue_column\x7d` DESC\n\x7blimit\x7d\n            "
      [("table", "sales"),
       ("limit", "LIMIT " ++ Nat.repr (p.limit_value.getD 100)),
       ("ranking_column", "product"), ("value_column", "amount")] =
      some (("\nSELECT \n    `product` as 名称,\n    `amount` as 数值\nFROM `sales`\nWHERE `amount` IS NOT NULL\nORDER BY `amount` DESC\nLIMIT " : String).data
        ++ ((Nat.repr (p.limit_value.getD 100)).data ++ ("\n            " : String).data)) := rfl
  rw [hstep]
  unfold SQLTemplateSystem.finishTemplate
  rw [hpf]
  have hDne : (Nat.repr (p.limit_value.getD 100)).data ≠ [] := repr_data_ne_nil _
  have hDdig : ∀ x ∈ (Nat.repr (p.limit_value.getD 100)).data, x.isDigit = true :=
    fun x hx => repr_data_digits hx
  show (⟨pyStrip (collapseBlank _)⟩ : String) = _
  unfold collapseBlank
  rw [collapseBlankF_of_noBlankPair _ _
    (noBlankPair_append_of_closed _ _ (by decide)
      (noBlankPair_digits_append _ _ hDdig (by decide)))]
  rw [pyStrip_shape _
    ("SELECT \n    `product` as 名称,\n    `amount` as 数值\nFROM `sales`\nWHERE `amount` IS NOT NULL\nORDER BY `amount` DESC\nLIMIT " : String).data
    _ _ (by decide) (by decide) (by decide) hDne hDdig]

lemma gen_basic_eval (p : SQLTemplateSystem.ExtractedParams) :
    SQLTemplateSystem.generate_from_template "basic_select" salesCatalog p =
      (⟨("SELECT `product` as `product`, `amount` as `金额` FROM `sales`   ORDER BY 1 LIMIT " : String).data
        ++ (Nat.repr (p.limit_value.getD 100)).data⟩ : String) := by
  unfold SQLTemplateSystem.generate_from_template
  rw [if_pos (by decide : SQLTemplateSystem.TEMPLATES.any
    (fun q => q.1 = "basic_select") = true)]
  exact gft_basic_eval p

lemma gen_ranking_eval (p : SQLTemplateSystem.ExtractedParams) :
    SQLTemplateSystem.generate_from_template "ranking" salesCatalog p =
      (⟨("SELECT \n    `product` as 名称,\n    `amount` as 数值\nFROM `sales`\nWHERE `amount` IS NOT NULL\nORDER BY `amount` DESC\nLIMIT " : String).data
        ++ (Nat.repr (p.limit_value.getD 100)).data⟩ : String) := by
  unfold SQLTemplateSystem.generate_from_template
  rw [if_pos (by decide : SQLTemplateSystem.TEMPLATES.any
    (fun q => q.1 = "ranking") = true)]
  exact gft_ranking_eval p

lemma fromCapture_skip (a b : List Char) (ha : ∀ c ∈ a, chEqCI 'F' c = false) :
    fromCapture (a ++ b) = fromCapture b := by
  induction a with
  | nil => rw [List.nil_append]
  | cons c a' ih =>
    rw [List.cons_append, fromCapture]
    have hpre : listIsPrefixCI "FROM".data (c :: (a' ++ b)) = false := by
      show listIsPrefixCI ('F' :: "ROM".data) (c :: (a' ++ b)) = false
      simp [listIsPrefixCI, ha c (List.mem_cons_self c a')]
    rw [if_neg (fun hcon => Bool.false_ne_true (hpre ▸ hcon))]
    exact ih (fun x hx => ha x (List.mem_cons_of_mem _ hx))

lemma digits_takeWhile_comma (D : List Char) (hdig : ∀ x ∈ D, x.isDigit = true) :
    D.takeWhile (fun ch => ch ≠ ',' && ch ≠ '(') = D :=
  List.takeWhile_eq_self_iff.mpr (fun x hx => by
    simp [digit_ne (hdig x hx) (by decide : (',' : Char).isDigit = false),
      digit_ne (hdig x hx) (by decide : ('(' : Char).isDigit = false)])

lemma fromCapture_basic (D : List Char) (hdig : ∀ x ∈ D, x.isDigit = true) :
    fromCapture (("FROM `sales`   ORDER BY 1 LIMIT " : String).data ++ D) =
      some (("`sales`   ORDER BY 1 LIMIT " : String).data ++ D) := by
  rw [show ("FROM `sales`   ORDER BY 1 LIMIT " : String).data ++ D =
    'F' :: (("ROM `sales`   ORDER BY 1 LIMIT " : String).data ++ D) from rfl]
  rw [fromCapture]
  have hafter : ('F' :: (("ROM `sales`   ORDER BY 1 LIMIT " : String).data ++ D)).drop 4 =
      (" `sales`   ORDER BY 1 LIMIT " : String).data ++ D := rfl
  have hws : ((" `sales`   ORDER BY 1 LIMIT " : String).data ++ D).takeWhile isPySpace =
      [' '] := rfl
  have hcap : (((" `sales`   ORDER BY 1 LIMIT " : String).data ++ D).drop 1).takeWhile
      (fun ch => ch ≠ ',' && ch ≠ '(') =
      ("`sales`   ORDER BY 1 LIMIT " : String).data ++ D := by
    rw [show ((" `sales`   ORDER BY 1 LIMIT " : String).data ++ D).drop 1 =
      ("`sales`   ORDER BY 1 LIMIT " : String).data ++ D from rfl]
    rw [takeWhile_append_all _ _ (by decide), digits_takeWhile_comma D hdig]
  split
  · simp only [hafter, hws, List.length_cons, List.length_nil, Nat.zero_add, hcap]
    split
    · rfl
    · rename_i hno
      exact absurd (by simp [show ("`sales`   ORDER BY 1 LIMIT " : String).data ++ D =
        btick :: (("sales`   ORDER BY 1 LIMIT " : String).data ++ D) from rfl]) hno
  · rename_i hno
    exact absurd rfl hno

lemma fromCapture_ranking (D : List Char) (hdig : ∀ x ∈ D, x.isDigit = true) :
    fromCapture
      (("FROM `sales`\nWHERE `amount` IS NOT NULL\nORDER BY `amount` DESC\nLIMIT " : String).data
        ++ D) =
      some (("`sales`\nWHERE `amount` IS NOT NULL\nORDER BY `amount` DESC\nLIMIT " : String).data
        ++ D) := by
  rw [show ("FROM `sales`\nWHERE `amount` IS NOT NULL\nORDER BY `amount` DESC\nLIMIT " : String).data ++ D =
    'F' :: (("ROM `sales`\nWHERE `amount` IS NOT NULL\nORDER BY `amount` DESC\nLIMIT " : String).data ++ D) from rfl]
  rw [fromCapture]
  have hafter : ('F' :: (("ROM `sales`\nWHERE `amount` IS NOT NULL\nORDER BY `amount` DESC\nLIMIT " : String).data ++ D)).drop 4 =
      (" `sales`\nWHERE `amount` IS NOT NULL\nORDER BY `amount` DESC\nLIMIT " : String).data ++ D := rfl
  have hws : ((" `sales`\nWHERE `amount` IS NOT NULL\nORDER BY `amount` DESC\nLIMIT " : String).data ++ D).takeWhile isPySpace =
      [' '] := rfl
  have hcap : (((" `sales`\nWHERE `amount` IS NOT NULL\nORDER BY `amount` DESC\nLIMIT " : String).data ++ D).drop 1).takeWhile
      (fun ch => ch ≠ ',' && ch ≠ '(') =
      ("`sales`\nWHERE `amount` IS NOT NULL\nORDER BY `amount` DESC\nLIMIT " : String).data ++ D := by
    rw [show ((" `sales`\nWHERE `amount` IS NOT NULL\nORDER BY `amount` DESC\nLIMIT " : String).data ++ D).drop 1 =
      ("`sales`\nWHERE `amount` IS NOT NULL\nORDER BY `amount` DESC\nLIMIT " : String).data ++ D from rfl]
    rw [takeWhile_append_all _ _ (by decide), digits_takeWhile_comma D hdig]
  split
  · simp only [hafter, hws, List.length_cons, List.length_nil, Nat.zero_add, hcap]
    split
    · rfl
    · rename_i hno
      exact absurd (by simp [show ("`sales`\nWHERE `amount` IS NOT NULL\nORDER BY `amount` DESC\nLIMIT " : String).data ++ D =
        btick :: (("sales`\nWHERE `amount` IS NOT NULL\nORDER BY `amount` DESC\nLIMIT " : String).data ++ D) from rfl]) hno
  · rename_i hno
    exact absurd rfl hno

lemma ctn_basic (D : List Char) (hD : D ≠ []) (hdig : ∀ x ∈ D, x.isDigit = true) :
    captureToTableName (("`sales`   ORDER BY 1 LIMIT " : String).data ++ D) = "sales" := by
  unfold captureToTableName
  have hps : pyStrip (("`sales`   ORDER BY 1 LIMIT " : String).data ++ D) =
      ("`sales`   ORDER BY 1 LIMIT " : String).data ++ D := by
    have := pyStrip_append_digits (("`sales`   ORDER BY 1 LIMIT " : String).data)
      (("`sales`   ORDER BY 1 LIMIT " : String).data) D (by decide) (by decide) hD hdig
    simpa using this
  rw [hps]
  have hsplit : splitHeadToken (("`sales`   ORDER BY 1 LIMIT " : String).data ++ D) =
      ("`sales`" : String).data := rfl
  rw [hsplit]
  decide

lemma ctn_ranking (D : List Char) (hD : D ≠ []) (hdig : ∀ x ∈ D, x.isDigit = true) :
    captureToTableName
      (("`sales`\nWHERE `amount` IS NOT NULL\nORDER BY `amount` DESC\nLIMIT " : String).data
        ++ D) = "sales" := by
  unfold captureToTableName
  have hps : pyStrip (("`sales`\nWHERE `amount` IS NOT NULL\nORDER BY `amount` DESC\nLIMIT " : String).data ++ D) =
      ("`sales`\nWHERE `amount` IS NOT NULL\nORDER BY `amount` DESC\nLIMIT " : String).data ++ D := by
    have := pyStrip_append_digits
      (("`sales`\nWHERE `amount` IS NOT NULL\nORDER BY `amount` DESC\nLIMIT " : String).data)
      (("`sales`\nWHERE `amount` IS NOT NULL\nORDER BY `amount` DESC\nLIMIT " : String).data)
      D (by decide) (by decide) hD hdig
    simpa using this
  rw [hps]
  have hsplit : splitHeadToken
      (("`sales`\nWHERE `amount` IS NOT NULL\nORDER BY `amount` DESC\nLIMIT " : String).data ++ D) =
      ("`sales`" : String).data := rfl
  rw [hsplit]
  decide

lemma extract_tables_ne_nil_of_capture (sql : String) (cap : List Char)
    (hfc : fromCapture sql.data = some cap)
    (hname : captureToTableName cap ≠ "") :
    SQLValidator.extract_tables_from_sql sql ≠ [] := by
  unfold SQLValidator.extract_tables_from_sql
  rw [hfc]
  simp only []
  rw [if_pos hname]
  unfold dedupFirst
  rw [List.cons_append]
  rw [dedupFirstAux]
  simp [dedupFirstAux]

/-- Over the sales catalog the `time_series` intent redispatches (no
datetime column) and degrades to the group-by fallback. -/
lemma gft_time_series_sales (p : SQLTemplateSystem.ExtractedParams) :
    SQLTemplateSystem.generate_from_template "time_series" salesCatalog p =
      "SELECT * FROM `sales` LIMIT 10" := rfl

/-- Over the sales catalog the `related_query` intent redispatches (a
single table) and degrades to the group-by fallback. -/
lemma gft_related_sales (p : SQLTemplateSystem.ExtractedParams) :
    SQLTemplateSystem.generate_from_template "related_query" salesCatalog p =
      "SELECT * FROM `sales` LIMIT 10" := rfl

/-- The commented `basic_select` output always has an extractable table. -/
lemma extract_tables_basic_ne (D : List Char) (hD : D ≠ [])
    (hdig : ∀ x ∈ D, x.isDigit = true) :
    SQLValidator.extract_tables_from_sql
      ("-- 基于模板生成: " ++ "基础查询" ++ "\n" ++
        (⟨("SELECT `product` as `product`, `amount` as `金额` FROM `sales`   ORDER BY 1 LIMIT " : String).data
          ++ D⟩ : String)) ≠ [] := by
  apply extract_tables_ne_nil_of_capture _
    (("`sales`   ORDER BY 1 LIMIT " : String).data ++ D)
  · have hdata : ("-- 基于模板生成: " ++ "基础查询" ++ "\n" ++
        (⟨("SELECT `product` as `product`, `amount` as `金额` FROM `sales`   ORDER BY 1 LIMIT " : String).data
          ++ D⟩ : String)).data =
        ("-- 基于模板生成: 基础查询\nSELECT `product` as `product`, `amount` as `金额` " : String).data ++
          (("FROM `sales`   ORDER BY 1 LIMIT " : String).data ++ D) := by
      simp only [String.data_append]
      rw [show (("-- 基于模板生成: " : String).data ++ ("基础查询" : String).data ++
          ("\n" : String).data) ++
          ((("SELECT `product` as `product`, `amount` as `金额` FROM `sales`   ORDER BY 1 LIMIT " : String).data) ++ D) =
        ((("-- 基于模板生成: " : String).data ++ ("基础查询" : String).data ++
          ("\n" : String).data) ++
          ("SELECT `product` as `product`, `amount` as `金额` FROM `sales`   ORDER BY 1 LIMIT " : String).data) ++ D
        from (List.append_assoc _ _ _).symm]
      rw [show (("-- 基于模板生成: " : String).data ++ ("基础查询" : String).data ++
          ("\n" : String).data) ++
          ("SELECT `product` as `product`, `amount` as `金额` FROM `sales`   ORDER BY 1 LIMIT " : String).data =
        ("-- 基于模板生成: 基础查询\nSELECT `product` as `product`, `amount` as `金额` " : String).data ++
          ("FROM `sales`   ORDER BY 1 LIMIT " : String).data from by decide]
      rw [List.append_assoc]
    rw [hdata, fromCapture_skip _ _ (by decide), fromCapture_basic D hdig]
  · rw [ctn_basic D hD hdig]
    decide

/-- The commented `ranking` output always has an extractable table. -/
lemma extract_tables_ranking_ne (D : List Char) (hD : D ≠ [])
    (hdig : ∀ x ∈ D, x.isDigit = true) :
    SQLValidator.extract_tables_from_sql
      ("-- 基于模板生成: " ++ "排名查询" ++ "\n" ++
        (⟨("SELECT \n    `product` as 名称,\n    `amount` as 数值\nFROM `sales`\nWHERE `amount` IS NOT NULL\nORDER BY `amount` DESC\nLIMIT " : String).data
          ++ D⟩ : String)) ≠ [] := by
  apply extract_tables_ne_nil_of_capture _
    (("`sales`\nWHERE `amount` IS NOT NULL\nORDER BY `amount` DESC\nLIMIT " : String).data ++ D)
  · have hdata : ("-- 基于模板生成: " ++ "排名查询" ++ "\n" ++
        (⟨("SELECT \n    `product` as 名称,\n    `amount` as 数值\nFROM `sales`\nWHERE `amount` IS NOT NULL\nORDER BY `amount` DESC\nLIMIT " : String).data
          ++ D⟩ : String)).data =
        ("-- 基于模板生成: 排名查询\nSELECT \n    `product` as 名称,\n    `amount` as 数值\n" : String).data ++
          (("FROM `sales`\nWHERE `amount` IS NOT NULL\nORDER BY `amount` DESC\nLIMIT " : String).data ++ D) := by
      simp only [String.data_append]
      rw [show (("-- 基于模板生成: " : String).data ++ ("排名查询" : String).data ++
          ("\n" : String).data) ++
          ((("SELECT \n    `product` as 名称,\n    `amount` as 数值\nFROM `sales`\nWHERE `amount` IS NOT NULL\nORDER BY `amount` DESC\nLIMIT " : String).data) ++ D) =
        ((("-- 基于模板生成: " : String).data ++ ("排名查询" : String).data ++
          ("\n" : String).data) ++
          ("SELECT \n    `product` as 名称,\n    `amount` as 数值\nFROM `sales`\nWHERE `amount` IS NOT NULL\nORDER BY `amount` DESC\nLIMIT " : String).data) ++ D
        from (List.append_assoc _ _ _).symm]
      rw [show (("-- 基于模板生成: " : String).data ++ ("排名查询" : String).data ++
          ("\n" : String).data) ++
          ("SELECT \n    `product` as 名称,\n    `amount` as 数值\nFROM `sales`\nWHERE `amount` IS NOT NULL\nORDER BY `amount` DESC\nLIMIT " : String).data =
        ("-- 基于模板生成: 排名查询\nSELECT \n    `product` as 名称,\n    `amount` as 数值\n" : String).data ++
          ("FROM `sales`\nWHERE `amount` IS NOT NULL\nORDER BY `amount` DESC\nLIMIT " : String).data from by decide]
      rw [List.append_assoc]
    rw [hdata, fromCapture_skip _ _ (by decide), fromCapture_ranking D hdig]
  · rw [ctn_ranking D hD hdig]
    decide

/-- **C1** counterexample to the claim as stated: with the sales catalog
(non-empty) and the template path, the query returned for the request
`hello` is the provenance-commented template output, and the Safety
Validator rejects it (`isStructurallyValid = false`): the leading `--`
comment line violates the leading-`SELECT` rule. -/
theorem C1_counterexample :
    salesCatalog ≠ [] ∧
    LLMAnalyst.generate_sql_query false "" GenResult.timeout "hello" salesCatalog =
      "-- 基于模板生成: 基础查询\nSELECT `product` as `product`, `amount` as `金额` FROM `sales`   ORDER BY 1 LIMIT 10" ∧
    (SQLValidator.validate_sql_structure
      (LLMAnalyst.generate_sql_query false "" GenResult.timeout "hello" salesCatalog)).1 =
      false :=
  ⟨by decide, by decide, by decide⟩

/-- **C1** (amended).  On the template path (the Generation Service not
configured) the query returned by `generate_sql_query` over the sales
catalog *never* passes the Safety Validator, for every request: the
non-empty-request branch prepends the provenance comment
`-- 基于模板生成: <desc>`, which survives `_validate_and_fix_sql` (a table
is always extractable from the template output) and violates the
validator's leading-`SELECT` rule; the empty-request branch returns the
prompt text `请输入查询问题`, which the validator also rejects. -/
theorem C1_template_path_always_invalid (baseUrl : String) (oracle : GenResult)
    (request : String) :
    (SQLValidator.validate_sql_structure
      (LLMAnalyst.generate_sql_query false baseUrl oracle request salesCatalog)).1 = false := by
  unfold LLMAnalyst.generate_sql_query
  by_cases hreq : strStrip request = ""
  · rw [if_pos hreq]
    decide
  · rw [if_neg hreq]
    simp only []
    rw [if_neg (fun hcon => Bool.false_ne_true hcon)]
    unfold LLMAnalyst.generate_sql_from_template
    simp only []
    have hmem := classify_intent_mem request
    simp only [List.mem_cons, List.not_mem_nil, or_false] at hmem
    rcases hmem with h | h | h | h | h | h
    · -- summary_stats
      rw [h]
      rw [show ((SQLTemplateSystem.template_descriptions.find?
          (fun p => p.1 = "summary_stats")).map (fun x => x.2)).getD "查询" = "统计汇总"
        from by decide]
      rw [show SQLTemplateSystem.generate_from_template "summary_stats" salesCatalog
          (SQLTemplateSystem.classify_query_intent request).2.extracted_params =
          "SELECT * FROM `sales` LIMIT 10" from rfl]
      exact vafs_invalid _ salesCatalog (by decide) (by decide)
    · -- group_by_stats
      rw [h]
      rw [show ((SQLTemplateSystem.template_descriptions.find?
          (fun p => p.1 = "group_by_stats")).map (fun x => x.2)).getD "查询" = "分组统计"
        from by decide]
      rw [show SQLTemplateSystem.generate_from_template "group_by_stats" salesCatalog
          (SQLTemplateSystem.classify_query_intent request).2.extracted_params =
          "SELECT * FROM `sales` LIMIT 10" from rfl]
      exact vafs_invalid _ salesCatalog (by decide) (by decide)
    · -- time_series
      rw [h]
      rw [show ((SQLTemplateSystem.template_descriptions.find?
          (fun p => p.1 = "time_series")).map (fun x => x.2)).getD "查询" = "时间序列分析"
        from by decide]
      rw [gft_time_series_sales]
      exact vafs_invalid _ salesCatalog (by decide) (by decide)
    · -- ranking
      rw [h]
      rw [show ((SQLTemplateSystem.template_descriptions.find?
          (fun p => p.1 = "ranking")).map (fun x => x.2)).getD "查询" = "排名查询"
        from by decide]
      rw [gen_ranking_eval]
      exact vafs_invalid _ salesCatalog
        (by rw [String.data_append]; exact take_two_append _ (by decide))
        (extract_tables_ranking_ne _ (repr_data_ne_nil _) (fun x hx => repr_data_digits hx))
    · -- related_query
      rw [h]
      rw [show ((SQLTemplateSystem.template_descriptions.find?
          (fun p => p.1 = "related_query")).map (fun x => x.2)).getD "查询" = "关联查询"
        from by decide]
      rw [gft_related_sales]
      exact vafs_invalid _ salesCatalog (by decide) (by decide)
    · -- basic_select
      rw [h]
      rw [show ((SQLTemplateSystem.template_descriptions.find?
          (fun p => p.1 = "basic_select")).map (fun x => x.2)).getD "查询" = "基础查询"
        from by decide]
      rw [gen_basic_eval]
      exact vafs_invalid _ salesCatalog
        (by rw [String.data_append]; exact take_two_append _ (by decide))
        (extract_tables_basic_ne _ (repr_data_ne_nil _) (fun x hx => repr_data_digits hx))
